import Mathlib

/-!
Shallow embedding of `contracts/course/course_registry/src/functions/create_course.rs`.

Strings are modelled as lists of characters.  The Soroban persistent key-value
store is modelled by a `Store` record with one field per key family used by the
code: course records are stored under the pair key `(COURSE_KEY, id_string)`,
title-uniqueness markers under `(TITLE_KEY, lowercased_title)`, and the id
counter under the bare symbol `COURSE_ID` (the bare symbol and the pair keys
never collide, which the separate record fields capture).  Panics in the Rust
code become `Except.error` results; the store is threaded explicitly, and each
result carries the store as it stood when the function returned or panicked.

The string primitives the code calls are embedded with their Unicode
semantics, transcribed from the Unicode character database (version 14.0.0):
`str::trim` drops the 25 White_Space code points from both ends;
`str::to_lowercase` applies the full per-character lowercase mapping (a table
of all 1407 code points with a mapping, of which only U+0130 expands to two
characters) together with the one context-sensitive rule the Rust standard
library implements, the Final_Sigma rule for capital sigma, using the Cased
and Case_Ignorable character classes exactly as `map_uppercase_sigma` does.
-/

namespace CourseRegistry

abbrev Str := List Char

abbrev Address := Nat

structure Env where
  current_contract_address : Address
deriving DecidableEq

/-- Code points with the Unicode White_Space property: exactly the set
recognised by Rust `char::is_whitespace`. -/
def wsCharList : List Nat :=
  [9, 10, 11, 12, 13, 32, 133, 160, 5760, 8192, 8193, 8194, 8195, 8196, 8197,
   8198, 8199, 8200, 8201, 8202, 8232, 8233, 8239, 8287, 12288]

def rustIsWhitespaceN (n : Nat) : Bool := wsCharList.any (fun k => k == n)

/-- Rust `char::is_whitespace`. -/
def rustIsWhitespace (c : Char) : Bool := rustIsWhitespaceN c.toNat

/-- Leading whitespace removal, Rust `str::trim_start`. -/
def trimStart (s : Str) : Str := s.dropWhile rustIsWhitespace

/-- Trailing whitespace removal, Rust `str::trim_end`. -/
def trimEnd (s : Str) : Str := (s.reverse.dropWhile rustIsWhitespace).reverse

/-- Rust `str::trim`: drop leading and trailing whitespace. -/
def trim (s : Str) : Str := trimEnd (trimStart s)

set_option maxHeartbeats 800000 in
def lowerPairs1 : List Nat := [
  192, 224, 193, 225, 194, 226, 195, 227, 196, 228, 197, 229, 198, 230, 199, 231,
  200, 232, 201, 233, 202, 234, 203, 235, 204, 236, 205, 237, 206, 238, 207, 239,
  208, 240, 209, 241, 210, 242, 211, 243, 212, 244, 213, 245, 214, 246, 216, 248,
  217, 249, 218, 250, 219, 251, 220, 252, 221, 253, 222, 254, 256, 257, 258, 259,
  260, 261, 262, 263, 264, 265, 266, 267, 268, 269, 270, 271, 272, 273, 274, 275,
  276, 277, 278, 279, 280, 281, 282, 283, 284, 285, 286, 287, 288, 289, 290, 291,
  292, 293, 294, 295, 296, 297, 298, 299, 300, 301, 302, 303, 306, 307, 308, 309,
  310, 311, 313, 314, 315, 316, 317, 318, 319, 320, 321, 322, 323, 324, 325, 326,
  327, 328, 330, 331, 332, 333, 334, 335, 336, 337, 338, 339, 340, 341, 342, 343,
  344, 345, 346, 347, 348, 349, 350, 351, 352, 353, 354, 355, 356, 357, 358, 359,
  360, 361, 362, 363, 364, 365, 366, 367, 368, 369, 370, 371, 372, 373, 374, 375,
  376, 255, 377, 378, 379, 380, 381, 382, 385, 595, 386, 387, 388, 389, 390, 596,
  391, 392, 393, 598, 394, 599, 395, 396, 398, 477, 399, 601, 400, 603, 401, 402,
  403, 608, 404, 611, 406, 617, 407, 616, 408, 409, 412, 623, 413, 626, 415, 629,
  416, 417, 418, 419, 420, 421, 422, 640, 423, 424, 425, 643, 428, 429, 430, 648,
  431, 432, 433, 650, 434, 651, 435, 436, 437, 438, 439, 658, 440, 441, 444, 445]

set_option maxHeartbeats 800000 in
def lowerPairs2 : List Nat := [
  452, 454, 453, 454, 455, 457, 456, 457, 458, 460, 459, 460, 461, 462, 463, 464,
  465, 466, 467, 468, 469, 470, 471, 472, 473, 474, 475, 476, 478, 479, 480, 481,
  482, 483, 484, 485, 486, 487, 488, 489, 490, 491, 492, 493, 494, 495, 497, 499,
  498, 499, 500, 501, 502, 405, 503, 447, 504, 505, 506, 507, 508, 509, 510, 511,
  512, 513, 514, 515, 516, 517, 518, 519, 520, 521, 522, 523, 524, 525, 526, 527,
  528, 529, 530, 531, 532, 533, 534, 535, 536, 537, 538, 539, 540, 541, 542, 543,
  544, 414, 546, 547, 548, 549, 550, 551, 552, 553, 554, 555, 556, 557, 558, 559,
  560, 561, 562, 563, 570, 11365, 571, 572, 573, 410, 574, 11366, 577, 578, 579, 384,
  580, 649, 581, 652, 582, 583, 584, 585, 586, 587, 588, 589, 590, 591, 880, 881,
  882, 883, 886, 887, 895, 1011, 902, 940, 904, 941, 905, 942, 906, 943, 908, 972,
  910, 973, 911, 974, 913, 945, 914, 946, 915, 947, 916, 948, 917, 949, 918, 950,
  919, 951, 920, 952, 921, 953, 922, 954, 923, 955, 924, 956, 925, 957, 926, 958,
  927, 959, 928, 960, 929, 961, 931, 963, 932, 964, 933, 965, 934, 966, 935, 967,
  936, 968, 937, 969, 938, 970, 939, 971, 975, 983, 984, 985, 986, 987, 988, 989,
  990, 991, 992, 993, 994, 995, 996, 997, 998, 999, 1000, 1001, 1002, 1003, 1004, 1005,
  1006, 1007, 1012, 952, 1015, 1016, 1017, 1010, 1018, 1019, 1021, 891, 1022, 892, 1023, 893]

set_option maxHeartbeats 800000 in
def lowerPairs3 : List Nat := [
  1024, 1104, 1025, 1105, 1026, 1106, 1027, 1107, 1028, 1108, 1029, 1109, 1030, 1110, 1031, 1111,
  1032, 1112, 1033, 1113, 1034, 1114, 1035, 1115, 1036, 1116, 1037, 1117, 1038, 1118, 1039, 1119,
  1040, 1072, 1041, 1073, 1042, 1074, 1043, 1075, 1044, 1076, 1045, 1077, 1046, 1078, 1047, 1079,
  1048, 1080, 1049, 1081, 1050, 1082, 1051, 1083, 1052, 1084, 1053, 1085, 1054, 1086, 1055, 1087,
  1056, 1088, 1057, 1089, 1058, 1090, 1059, 1091, 1060, 1092, 1061, 1093, 1062, 1094, 1063, 1095,
  1064, 1096, 1065, 1097, 1066, 1098, 1067, 1099, 1068, 1100, 1069, 1101, 1070, 1102, 1071, 1103,
  1120, 1121, 1122, 1123, 1124, 1125, 1126, 1127, 1128, 1129, 1130, 1131, 1132, 1133, 1134, 1135,
  1136, 1137, 1138, 1139, 1140, 1141, 1142, 1143, 1144, 1145, 1146, 1147, 1148, 1149, 1150, 1151,
  1152, 1153, 1162, 1163, 1164, 1165, 1166, 1167, 1168, 1169, 1170, 1171, 1172, 1173, 1174, 1175,
  1176, 1177, 1178, 1179, 1180, 1181, 1182, 1183, 1184, 1185, 1186, 1187, 1188, 1189, 1190, 1191,
  1192, 1193, 1194, 1195, 1196, 1197, 1198, 1199, 1200, 1201, 1202, 1203, 1204, 1205, 1206, 1207,
  1208, 1209, 1210, 1211, 1212, 1213, 1214, 1215, 1216, 1231, 1217, 1218, 1219, 1220, 1221, 1222,
  1223, 1224, 1225, 1226, 1227, 1228, 1229, 1230, 1232, 1233, 1234, 1235, 1236, 1237, 1238, 1239,
  1240, 1241, 1242, 1243, 1244, 1245, 1246, 1247, 1248, 1249, 1250, 1251, 1252, 1253, 1254, 1255,
  1256, 1257, 1258, 1259, 1260, 1261, 1262, 1263, 1264, 1265, 1266, 1267, 1268, 1269, 1270, 1271,
  1272, 1273, 1274, 1275, 1276, 1277, 1278, 1279, 1280, 1281, 1282, 1283, 1284, 1285, 1286, 1287]

set_option maxHeartbeats 800000 in
def lowerPairs4 : List Nat := [
  1288, 1289, 1290, 1291, 1292, 1293, 1294, 1295, 1296, 1297, 1298, 1299, 1300, 1301, 1302, 1303,
  1304, 1305, 1306, 1307, 1308, 1309, 1310, 1311, 1312, 1313, 1314, 1315, 1316, 1317, 1318, 1319,
  1320, 1321, 1322, 1323, 1324, 1325, 1326, 1327, 1329, 1377, 1330, 1378, 1331, 1379, 1332, 1380,
  1333, 1381, 1334, 1382, 1335, 1383, 1336, 1384, 1337, 1385, 1338, 1386, 1339, 1387, 1340, 1388,
  1341, 1389, 1342, 1390, 1343, 1391, 1344, 1392, 1345, 1393, 1346, 1394, 1347, 1395, 1348, 1396,
  1349, 1397, 1350, 1398, 1351, 1399, 1352, 1400, 1353, 1401, 1354, 1402, 1355, 1403, 1356, 1404,
  1357, 1405, 1358, 1406, 1359, 1407, 1360, 1408, 1361, 1409, 1362, 1410, 1363, 1411, 1364, 1412,
  1365, 1413, 1366, 1414, 4256, 11520, 4257, 11521, 4258, 11522, 4259, 11523, 4260, 11524, 4261, 11525,
  4262, 11526, 4263, 11527, 4264, 11528, 4265, 11529, 4266, 11530, 4267, 11531, 4268, 11532, 4269, 11533,
  4270, 11534, 4271, 11535, 4272, 11536, 4273, 11537, 4274, 11538, 4275, 11539, 4276, 11540, 4277, 11541,
  4278, 11542, 4279, 11543, 4280, 11544, 4281, 11545, 4282, 11546, 4283, 11547, 4284, 11548, 4285, 11549,
  4286, 11550, 4287, 11551, 4288, 11552, 4289, 11553, 4290, 11554, 4291, 11555, 4292, 11556, 4293, 11557,
  4295, 11559, 4301, 11565, 5024, 43888, 5025, 43889, 5026, 43890, 5027, 43891, 5028, 43892, 5029, 43893,
  5030, 43894, 5031, 43895, 5032, 43896, 5033, 43897, 5034, 43898, 5035, 43899, 5036, 43900, 5037, 43901,
  5038, 43902, 5039, 43903, 5040, 43904, 5041, 43905, 5042, 43906, 5043, 43907, 5044, 43908, 5045, 43909,
  5046, 43910, 5047, 43911, 5048, 43912, 5049, 43913, 5050, 43914, 5051, 43915, 5052, 43916, 5053, 43917]

set_option maxHeartbeats 800000 in
def lowerPairs5 : List Nat := [
  5054, 43918, 5055, 43919, 5056, 43920, 5057, 43921, 5058, 43922, 5059, 43923, 5060, 43924, 5061, 43925,
  5062, 43926, 5063, 43927, 5064, 43928, 5065, 43929, 5066, 43930, 5067, 43931, 5068, 43932, 5069, 43933,
  5070, 43934, 5071, 43935, 5072, 43936, 5073, 43937, 5074, 43938, 5075, 43939, 5076, 43940, 5077, 43941,
  5078, 43942, 5079, 43943, 5080, 43944, 5081, 43945, 5082, 43946, 5083, 43947, 5084, 43948, 5085, 43949,
  5086, 43950, 5087, 43951, 5088, 43952, 5089, 43953, 5090, 43954, 5091, 43955, 5092, 43956, 5093, 43957,
  5094, 43958, 5095, 43959, 5096, 43960, 5097, 43961, 5098, 43962, 5099, 43963, 5100, 43964, 5101, 43965,
  5102, 43966, 5103, 43967, 5104, 5112, 5105, 5113, 5106, 5114, 5107, 5115, 5108, 5116, 5109, 5117,
  7312, 4304, 7313, 4305, 7314, 4306, 7315, 4307, 7316, 4308, 7317, 4309, 7318, 4310, 7319, 4311,
  7320, 4312, 7321, 4313, 7322, 4314, 7323, 4315, 7324, 4316, 7325, 4317, 7326, 4318, 7327, 4319,
  7328, 4320, 7329, 4321, 7330, 4322, 7331, 4323, 7332, 4324, 7333, 4325, 7334, 4326, 7335, 4327,
  7336, 4328, 7337, 4329, 7338, 4330, 7339, 4331, 7340, 4332, 7341, 4333, 7342, 4334, 7343, 4335,
  7344, 4336, 7345, 4337, 7346, 4338, 7347, 4339, 7348, 4340, 7349, 4341, 7350, 4342, 7351, 4343,
  7352, 4344, 7353, 4345, 7354, 4346, 7357, 4349, 7358, 4350, 7359, 4351, 7680, 7681, 7682, 7683,
  7684, 7685, 7686, 7687, 7688, 7689, 7690, 7691, 7692, 7693, 7694, 7695, 7696, 7697, 7698, 7699,
  7700, 7701, 7702, 7703, 7704, 7705, 7706, 7707, 7708, 7709, 7710, 7711, 7712, 7713, 7714, 7715,
  7716, 7717, 7718, 7719, 7720, 7721, 7722, 7723, 7724, 7725, 7726, 7727, 7728, 7729, 7730, 7731]

set_option maxHeartbeats 800000 in
def lowerPairs6 : List Nat := [
  7732, 7733, 7734, 7735, 7736, 7737, 7738, 7739, 7740, 7741, 7742, 7743, 7744, 7745, 7746, 7747,
  7748, 7749, 7750, 7751, 7752, 7753, 7754, 7755, 7756, 7757, 7758, 7759, 7760, 7761, 7762, 7763,
  7764, 7765, 7766, 7767, 7768, 7769, 7770, 7771, 7772, 7773, 7774, 7775, 7776, 7777, 7778, 7779,
  7780, 7781, 7782, 7783, 7784, 7785, 7786, 7787, 7788, 7789, 7790, 7791, 7792, 7793, 7794, 7795,
  7796, 7797, 7798, 7799, 7800, 7801, 7802, 7803, 7804, 7805, 7806, 7807, 7808, 7809, 7810, 7811,
  7812, 7813, 7814, 7815, 7816, 7817, 7818, 7819, 7820, 7821, 7822, 7823, 7824, 7825, 7826, 7827,
  7828, 7829, 7838, 223, 7840, 7841, 7842, 7843, 7844, 7845, 7846, 7847, 7848, 7849, 7850, 7851,
  7852, 7853, 7854, 7855, 7856, 7857, 7858, 7859, 7860, 7861, 7862, 7863, 7864, 7865, 7866, 7867,
  7868, 7869, 7870, 7871, 7872, 7873, 7874, 7875, 7876, 7877, 7878, 7879, 7880, 7881, 7882, 7883,
  7884, 7885, 7886, 7887, 7888, 7889, 7890, 7891, 7892, 7893, 7894, 7895, 7896, 7897, 7898, 7899,
  7900, 7901, 7902, 7903, 7904, 7905, 7906, 7907, 7908, 7909, 7910, 7911, 7912, 7913, 7914, 7915,
  7916, 7917, 7918, 7919, 7920, 7921, 7922, 7923, 7924, 7925, 7926, 7927, 7928, 7929, 7930, 7931,
  7932, 7933, 7934, 7935, 7944, 7936, 7945, 7937, 7946, 7938, 7947, 7939, 7948, 7940, 7949, 7941,
  7950, 7942, 7951, 7943, 7960, 7952, 7961, 7953, 7962, 7954, 7963, 7955, 7964, 7956, 7965, 7957,
  7976, 7968, 7977, 7969, 7978, 7970, 7979, 7971, 7980, 7972, 7981, 7973, 7982, 7974, 7983, 7975,
  7992, 7984, 7993, 7985, 7994, 7986, 7995, 7987, 7996, 7988, 7997, 7989, 7998, 7990, 7999, 7991]

set_option maxHeartbeats 800000 in
def lowerPairs7 : List Nat := [
  8008, 8000, 8009, 8001, 8010, 8002, 8011, 8003, 8012, 8004, 8013, 8005, 8025, 8017, 8027, 8019,
  8029, 8021, 8031, 8023, 8040, 8032, 8041, 8033, 8042, 8034, 8043, 8035, 8044, 8036, 8045, 8037,
  8046, 8038, 8047, 8039, 8072, 8064, 8073, 8065, 8074, 8066, 8075, 8067, 8076, 8068, 8077, 8069,
  8078, 8070, 8079, 8071, 8088, 8080, 8089, 8081, 8090, 8082, 8091, 8083, 8092, 8084, 8093, 8085,
  8094, 8086, 8095, 8087, 8104, 8096, 8105, 8097, 8106, 8098, 8107, 8099, 8108, 8100, 8109, 8101,
  8110, 8102, 8111, 8103, 8120, 8112, 8121, 8113, 8122, 8048, 8123, 8049, 8124, 8115, 8136, 8050,
  8137, 8051, 8138, 8052, 8139, 8053, 8140, 8131, 8152, 8144, 8153, 8145, 8154, 8054, 8155, 8055,
  8168, 8160, 8169, 8161, 8170, 8058, 8171, 8059, 8172, 8165, 8184, 8056, 8185, 8057, 8186, 8060,
  8187, 8061, 8188, 8179, 8486, 969, 8490, 107, 8491, 229, 8498, 8526, 8544, 8560, 8545, 8561,
  8546, 8562, 8547, 8563, 8548, 8564, 8549, 8565, 8550, 8566, 8551, 8567, 8552, 8568, 8553, 8569,
  8554, 8570, 8555, 8571, 8556, 8572, 8557, 8573, 8558, 8574, 8559, 8575, 8579, 8580, 9398, 9424,
  9399, 9425, 9400, 9426, 9401, 9427, 9402, 9428, 9403, 9429, 9404, 9430, 9405, 9431, 9406, 9432,
  9407, 9433, 9408, 9434, 9409, 9435, 9410, 9436, 9411, 9437, 9412, 9438, 9413, 9439, 9414, 9440,
  9415, 9441, 9416, 9442, 9417, 9443, 9418, 9444, 9419, 9445, 9420, 9446, 9421, 9447, 9422, 9448,
  9423, 9449, 11264, 11312, 11265, 11313, 11266, 11314, 11267, 11315, 11268, 11316, 11269, 11317, 11270, 11318,
  11271, 11319, 11272, 11320, 11273, 11321, 11274, 11322, 11275, 11323, 11276, 11324, 11277, 11325, 11278, 11326]

set_option maxHeartbeats 800000 in
def lowerPairs8 : List Nat := [
  11279, 11327, 11280, 11328, 11281, 11329, 11282, 11330, 11283, 11331, 11284, 11332, 11285, 11333, 11286, 11334,
  11287, 11335, 11288, 11336, 11289, 11337, 11290, 11338, 11291, 11339, 11292, 11340, 11293, 11341, 11294, 11342,
  11295, 11343, 11296, 11344, 11297, 11345, 11298, 11346, 11299, 11347, 11300, 11348, 11301, 11349, 11302, 11350,
  11303, 11351, 11304, 11352, 11305, 11353, 11306, 11354, 11307, 11355, 11308, 11356, 11309, 11357, 11310, 11358,
  11311, 11359, 11360, 11361, 11362, 619, 11363, 7549, 11364, 637, 11367, 11368, 11369, 11370, 11371, 11372,
  11373, 593, 11374, 625, 11375, 592, 11376, 594, 11378, 11379, 11381, 11382, 11390, 575, 11391, 576,
  11392, 11393, 11394, 11395, 11396, 11397, 11398, 11399, 11400, 11401, 11402, 11403, 11404, 11405, 11406, 11407,
  11408, 11409, 11410, 11411, 11412, 11413, 11414, 11415, 11416, 11417, 11418, 11419, 11420, 11421, 11422, 11423,
  11424, 11425, 11426, 11427, 11428, 11429, 11430, 11431, 11432, 11433, 11434, 11435, 11436, 11437, 11438, 11439,
  11440, 11441, 11442, 11443, 11444, 11445, 11446, 11447, 11448, 11449, 11450, 11451, 11452, 11453, 11454, 11455,
  11456, 11457, 11458, 11459, 11460, 11461, 11462, 11463, 11464, 11465, 11466, 11467, 11468, 11469, 11470, 11471,
  11472, 11473, 11474, 11475, 11476, 11477, 11478, 11479, 11480, 11481, 11482, 11483, 11484, 11485, 11486, 11487,
  11488, 11489, 11490, 11491, 11499, 11500, 11501, 11502, 11506, 11507, 42560, 42561, 42562, 42563, 42564, 42565,
  42566, 42567, 42568, 42569, 42570, 42571, 42572, 42573, 42574, 42575, 42576, 42577, 42578, 42579, 42580, 42581,
  42582, 42583, 42584, 42585, 42586, 42587, 42588, 42589, 42590, 42591, 42592, 42593, 42594, 42595, 42596, 42597,
  42598, 42599, 42600, 42601, 42602, 42603, 42604, 42605, 42624, 42625, 42626, 42627, 42628, 42629, 42630, 42631]

set_option maxHeartbeats 800000 in
def lowerPairs9 : List Nat := [
  42632, 42633, 42634, 42635, 42636, 42637, 42638, 42639, 42640, 42641, 42642, 42643, 42644, 42645, 42646, 42647,
  42648, 42649, 42650, 42651, 42786, 42787, 42788, 42789, 42790, 42791, 42792, 42793, 42794, 42795, 42796, 42797,
  42798, 42799, 42802, 42803, 42804, 42805, 42806, 42807, 42808, 42809, 42810, 42811, 42812, 42813, 42814, 42815,
  42816, 42817, 42818, 42819, 42820, 42821, 42822, 42823, 42824, 42825, 42826, 42827, 42828, 42829, 42830, 42831,
  42832, 42833, 42834, 42835, 42836, 42837, 42838, 42839, 42840, 42841, 42842, 42843, 42844, 42845, 42846, 42847,
  42848, 42849, 42850, 42851, 42852, 42853, 42854, 42855, 42856, 42857, 42858, 42859, 42860, 42861, 42862, 42863,
  42873, 42874, 42875, 42876, 42877, 7545, 42878, 42879, 42880, 42881, 42882, 42883, 42884, 42885, 42886, 42887,
  42891, 42892, 42893, 613, 42896, 42897, 42898, 42899, 42902, 42903, 42904, 42905, 42906, 42907, 42908, 42909,
  42910, 42911, 42912, 42913, 42914, 42915, 42916, 42917, 42918, 42919, 42920, 42921, 42922, 614, 42923, 604,
  42924, 609, 42925, 620, 42926, 618, 42928, 670, 42929, 647, 42930, 669, 42931, 43859, 42932, 42933,
  42934, 42935, 42936, 42937, 42938, 42939, 42940, 42941, 42942, 42943, 42944, 42945, 42946, 42947, 42948, 42900,
  42949, 642, 42950, 7566, 42951, 42952, 42953, 42954, 42960, 42961, 42966, 42967, 42968, 42969, 42997, 42998,
  65313, 65345, 65314, 65346, 65315, 65347, 65316, 65348, 65317, 65349, 65318, 65350, 65319, 65351, 65320, 65352,
  65321, 65353, 65322, 65354, 65323, 65355, 65324, 65356, 65325, 65357, 65326, 65358, 65327, 65359, 65328, 65360,
  65329, 65361, 65330, 65362, 65331, 65363, 65332, 65364, 65333, 65365, 65334, 65366, 65335, 65367, 65336, 65368,
  65337, 65369, 65338, 65370, 66560, 66600, 66561, 66601, 66562, 66602, 66563, 66603, 66564, 66604, 66565, 66605]

set_option maxHeartbeats 800000 in
def lowerPairs10 : List Nat := [
  66566, 66606, 66567, 66607, 66568, 66608, 66569, 66609, 66570, 66610, 66571, 66611, 66572, 66612, 66573, 66613,
  66574, 66614, 66575, 66615, 66576, 66616, 66577, 66617, 66578, 66618, 66579, 66619, 66580, 66620, 66581, 66621,
  66582, 66622, 66583, 66623, 66584, 66624, 66585, 66625, 66586, 66626, 66587, 66627, 66588, 66628, 66589, 66629,
  66590, 66630, 66591, 66631, 66592, 66632, 66593, 66633, 66594, 66634, 66595, 66635, 66596, 66636, 66597, 66637,
  66598, 66638, 66599, 66639, 66736, 66776, 66737, 66777, 66738, 66778, 66739, 66779, 66740, 66780, 66741, 66781,
  66742, 66782, 66743, 66783, 66744, 66784, 66745, 66785, 66746, 66786, 66747, 66787, 66748, 66788, 66749, 66789,
  66750, 66790, 66751, 66791, 66752, 66792, 66753, 66793, 66754, 66794, 66755, 66795, 66756, 66796, 66757, 66797,
  66758, 66798, 66759, 66799, 66760, 66800, 66761, 66801, 66762, 66802, 66763, 66803, 66764, 66804, 66765, 66805,
  66766, 66806, 66767, 66807, 66768, 66808, 66769, 66809, 66770, 66810, 66771, 66811, 66928, 66967, 66929, 66968,
  66930, 66969, 66931, 66970, 66932, 66971, 66933, 66972, 66934, 66973, 66935, 66974, 66936, 66975, 66937, 66976,
  66938, 66977, 66940, 66979, 66941, 66980, 66942, 66981, 66943, 66982, 66944, 66983, 66945, 66984, 66946, 66985,
  66947, 66986, 66948, 66987, 66949, 66988, 66950, 66989, 66951, 66990, 66952, 66991, 66953, 66992, 66954, 66993,
  66956, 66995, 66957, 66996, 66958, 66997, 66959, 66998, 66960, 66999, 66961, 67000, 66962, 67001, 66964, 67003,
  66965, 67004, 68736, 68800, 68737, 68801, 68738, 68802, 68739, 68803, 68740, 68804, 68741, 68805, 68742, 68806,
  68743, 68807, 68744, 68808, 68745, 68809, 68746, 68810, 68747, 68811, 68748, 68812, 68749, 68813, 68750, 68814,
  68751, 68815, 68752, 68816, 68753, 68817, 68754, 68818, 68755, 68819, 68756, 68820, 68757, 68821, 68758, 68822]

set_option maxHeartbeats 800000 in
def lowerPairs11 : List Nat := [
  68759, 68823, 68760, 68824, 68761, 68825, 68762, 68826, 68763, 68827, 68764, 68828, 68765, 68829, 68766, 68830,
  68767, 68831, 68768, 68832, 68769, 68833, 68770, 68834, 68771, 68835, 68772, 68836, 68773, 68837, 68774, 68838,
  68775, 68839, 68776, 68840, 68777, 68841, 68778, 68842, 68779, 68843, 68780, 68844, 68781, 68845, 68782, 68846,
  68783, 68847, 68784, 68848, 68785, 68849, 68786, 68850, 71840, 71872, 71841, 71873, 71842, 71874, 71843, 71875,
  71844, 71876, 71845, 71877, 71846, 71878, 71847, 71879, 71848, 71880, 71849, 71881, 71850, 71882, 71851, 71883,
  71852, 71884, 71853, 71885, 71854, 71886, 71855, 71887, 71856, 71888, 71857, 71889, 71858, 71890, 71859, 71891,
  71860, 71892, 71861, 71893, 71862, 71894, 71863, 71895, 71864, 71896, 71865, 71897, 71866, 71898, 71867, 71899,
  71868, 71900, 71869, 71901, 71870, 71902, 71871, 71903, 93760, 93792, 93761, 93793, 93762, 93794, 93763, 93795,
  93764, 93796, 93765, 93797, 93766, 93798, 93767, 93799, 93768, 93800, 93769, 93801, 93770, 93802, 93771, 93803,
  93772, 93804, 93773, 93805, 93774, 93806, 93775, 93807, 93776, 93808, 93777, 93809, 93778, 93810, 93779, 93811,
  93780, 93812, 93781, 93813, 93782, 93814, 93783, 93815, 93784, 93816, 93785, 93817, 93786, 93818, 93787, 93819,
  93788, 93820, 93789, 93821, 93790, 93822, 93791, 93823, 125184, 125218, 125185, 125219, 125186, 125220, 125187, 125221,
  125188, 125222, 125189, 125223, 125190, 125224, 125191, 125225, 125192, 125226, 125193, 125227, 125194, 125228, 125195, 125229,
  125196, 125230, 125197, 125231, 125198, 125232, 125199, 125233, 125200, 125234, 125201, 125235, 125202, 125236, 125203, 125237,
  125204, 125238, 125205, 125239, 125206, 125240, 125207, 125241, 125208, 125242, 125209, 125243, 125210, 125244, 125211, 125245,
  125212, 125246, 125213, 125247, 125214, 125248, 125215, 125249, 125216, 125250, 125217, 125251]

def lowerPairs : List Nat := lowerPairs1 ++ lowerPairs2 ++ lowerPairs3 ++ lowerPairs4 ++ lowerPairs5 ++ lowerPairs6 ++ lowerPairs7 ++ lowerPairs8 ++ lowerPairs9 ++ lowerPairs10 ++ lowerPairs11

set_option maxHeartbeats 800000 in
def casedRangePairs1 : List Nat := [
  65, 90, 97, 122, 170, 170, 181, 181, 186, 186, 192, 214, 216, 246, 248, 442,
  444, 447, 452, 659, 661, 687, 880, 883, 886, 887, 891, 893, 895, 895, 902, 902,
  904, 906, 908, 908, 910, 929, 931, 1013, 1015, 1153, 1162, 1327, 1329, 1366, 1376, 1416,
  4256, 4293, 4295, 4295, 4301, 4301, 4304, 4346, 4349, 4351, 5024, 5109, 5112, 5117, 7296, 7304,
  7312, 7354, 7357, 7359, 7424, 7467, 7531, 7543, 7545, 7578, 7680, 7957, 7960, 7965, 7968, 8005,
  8008, 8013, 8016, 8023, 8025, 8025, 8027, 8027, 8029, 8029, 8031, 8061, 8064, 8116, 8118, 8124,
  8126, 8126, 8130, 8132, 8134, 8140, 8144, 8147, 8150, 8155, 8160, 8172, 8178, 8180, 8182, 8188,
  8450, 8450, 8455, 8455, 8458, 8467, 8469, 8469, 8473, 8477, 8484, 8484, 8486, 8486, 8488, 8488,
  8490, 8493, 8495, 8500, 8505, 8505, 8508, 8511, 8517, 8521, 8526, 8526, 8544, 8575, 8579, 8580,
  9398, 9449, 11264, 11387, 11390, 11492, 11499, 11502, 11506, 11507, 11520, 11557, 11559, 11559, 11565, 11565,
  42560, 42605, 42624, 42651, 42786, 42863, 42865, 42887, 42891, 42894, 42896, 42954, 42960, 42961, 42963, 42963,
  42965, 42969, 42997, 42998, 43002, 43002, 43824, 43866, 43872, 43880, 43888, 43967, 64256, 64262, 64275, 64279,
  65313, 65338, 65345, 65370, 66560, 66639, 66736, 66771, 66776, 66811, 66928, 66938, 66940, 66954, 66956, 66962,
  66964, 66965, 66967, 66977, 66979, 66993, 66995, 67001, 67003, 67004, 68736, 68786, 68800, 68850, 71840, 71903,
  93760, 93823, 119808, 119892, 119894, 119964, 119966, 119967, 119970, 119970, 119973, 119974, 119977, 119980, 119982, 119993,
  119995, 119995, 119997, 120003, 120005, 120069, 120071, 120074, 120077, 120084, 120086, 120092, 120094, 120121, 120123, 120126]

set_option maxHeartbeats 800000 in
def casedRangePairs2 : List Nat := [
  120128, 120132, 120134, 120134, 120138, 120144, 120146, 120485, 120488, 120512, 120514, 120538, 120540, 120570, 120572, 120596,
  120598, 120628, 120630, 120654, 120656, 120686, 120688, 120712, 120714, 120744, 120746, 120770, 120772, 120779, 122624, 122633,
  122635, 122654, 125184, 125251, 127280, 127305, 127312, 127337, 127344, 127369]

def casedRangePairs : List Nat := casedRangePairs1 ++ casedRangePairs2

set_option maxHeartbeats 800000 in
def ciRangePairs1 : List Nat := [
  39, 39, 46, 46, 58, 58, 94, 94, 96, 96, 168, 168, 173, 173, 175, 175,
  180, 180, 183, 184, 688, 879, 884, 885, 890, 890, 900, 901, 903, 903, 1155, 1161,
  1369, 1369, 1375, 1375, 1425, 1469, 1471, 1471, 1473, 1474, 1476, 1477, 1479, 1479, 1524, 1524,
  1536, 1541, 1552, 1562, 1564, 1564, 1600, 1600, 1611, 1631, 1648, 1648, 1750, 1757, 1759, 1768,
  1770, 1773, 1807, 1807, 1809, 1809, 1840, 1866, 1958, 1968, 2027, 2037, 2042, 2042, 2045, 2045,
  2070, 2093, 2137, 2139, 2184, 2184, 2192, 2193, 2200, 2207, 2249, 2306, 2362, 2362, 2364, 2364,
  2369, 2376, 2381, 2381, 2385, 2391, 2402, 2403, 2417, 2417, 2433, 2433, 2492, 2492, 2497, 2500,
  2509, 2509, 2530, 2531, 2558, 2558, 2561, 2562, 2620, 2620, 2625, 2626, 2631, 2632, 2635, 2637,
  2641, 2641, 2672, 2673, 2677, 2677, 2689, 2690, 2748, 2748, 2753, 2757, 2759, 2760, 2765, 2765,
  2786, 2787, 2810, 2815, 2817, 2817, 2876, 2876, 2879, 2879, 2881, 2884, 2893, 2893, 2901, 2902,
  2914, 2915, 2946, 2946, 3008, 3008, 3021, 3021, 3072, 3072, 3076, 3076, 3132, 3132, 3134, 3136,
  3142, 3144, 3146, 3149, 3157, 3158, 3170, 3171, 3201, 3201, 3260, 3260, 3263, 3263, 3270, 3270,
  3276, 3277, 3298, 3299, 3328, 3329, 3387, 3388, 3393, 3396, 3405, 3405, 3426, 3427, 3457, 3457,
  3530, 3530, 3538, 3540, 3542, 3542, 3633, 3633, 3636, 3642, 3654, 3662, 3761, 3761, 3764, 3772,
  3782, 3782, 3784, 3789, 3864, 3865, 3893, 3893, 3895, 3895, 3897, 3897, 3953, 3966, 3968, 3972,
  3974, 3975, 3981, 3991, 3993, 4028, 4038, 4038, 4141, 4144, 4146, 4151, 4153, 4154, 4157, 4158]

set_option maxHeartbeats 800000 in
def ciRangePairs2 : List Nat := [
  4184, 4185, 4190, 4192, 4209, 4212, 4226, 4226, 4229, 4230, 4237, 4237, 4253, 4253, 4348, 4348,
  4957, 4959, 5906, 5908, 5938, 5939, 5970, 5971, 6002, 6003, 6068, 6069, 6071, 6077, 6086, 6086,
  6089, 6099, 6103, 6103, 6109, 6109, 6155, 6159, 6211, 6211, 6277, 6278, 6313, 6313, 6432, 6434,
  6439, 6440, 6450, 6450, 6457, 6459, 6679, 6680, 6683, 6683, 6742, 6742, 6744, 6750, 6752, 6752,
  6754, 6754, 6757, 6764, 6771, 6780, 6783, 6783, 6823, 6823, 6832, 6862, 6912, 6915, 6964, 6964,
  6966, 6970, 6972, 6972, 6978, 6978, 7019, 7027, 7040, 7041, 7074, 7077, 7080, 7081, 7083, 7085,
  7142, 7142, 7144, 7145, 7149, 7149, 7151, 7153, 7212, 7219, 7222, 7223, 7288, 7293, 7376, 7378,
  7380, 7392, 7394, 7400, 7405, 7405, 7412, 7412, 7416, 7417, 7468, 7530, 7544, 7544, 7579, 7679,
  8125, 8125, 8127, 8129, 8141, 8143, 8157, 8159, 8173, 8175, 8189, 8190, 8203, 8207, 8216, 8217,
  8228, 8228, 8231, 8231, 8234, 8238, 8288, 8292, 8294, 8303, 8305, 8305, 8319, 8319, 8336, 8348,
  8400, 8432, 11388, 11389, 11503, 11505, 11631, 11631, 11647, 11647, 11744, 11775, 11823, 11823, 12293, 12293,
  12330, 12333, 12337, 12341, 12347, 12347, 12441, 12446, 12540, 12542, 40981, 40981, 42232, 42237, 42508, 42508,
  42607, 42610, 42612, 42621, 42623, 42623, 42652, 42655, 42736, 42737, 42752, 42785, 42864, 42864, 42888, 42890,
  42994, 42996, 43000, 43001, 43010, 43010, 43014, 43014, 43019, 43019, 43045, 43046, 43052, 43052, 43204, 43205,
  43232, 43249, 43263, 43263, 43302, 43309, 43335, 43345, 43392, 43394, 43443, 43443, 43446, 43449, 43452, 43453,
  43471, 43471, 43493, 43494, 43561, 43566, 43569, 43570, 43573, 43574, 43587, 43587, 43596, 43596, 43632, 43632]

set_option maxHeartbeats 800000 in
def ciRangePairs3 : List Nat := [
  43644, 43644, 43696, 43696, 43698, 43700, 43703, 43704, 43710, 43711, 43713, 43713, 43741, 43741, 43756, 43757,
  43763, 43764, 43766, 43766, 43867, 43871, 43881, 43883, 44005, 44005, 44008, 44008, 44013, 44013, 64286, 64286,
  64434, 64450, 65024, 65039, 65043, 65043, 65056, 65071, 65106, 65106, 65109, 65109, 65279, 65279, 65287, 65287,
  65294, 65294, 65306, 65306, 65342, 65342, 65344, 65344, 65392, 65392, 65438, 65439, 65507, 65507, 65529, 65531,
  66045, 66045, 66272, 66272, 66422, 66426, 67456, 67461, 67463, 67504, 67506, 67514, 68097, 68099, 68101, 68102,
  68108, 68111, 68152, 68154, 68159, 68159, 68325, 68326, 68900, 68903, 69291, 69292, 69446, 69456, 69506, 69509,
  69633, 69633, 69688, 69702, 69744, 69744, 69747, 69748, 69759, 69761, 69811, 69814, 69817, 69818, 69821, 69821,
  69826, 69826, 69837, 69837, 69888, 69890, 69927, 69931, 69933, 69940, 70003, 70003, 70016, 70017, 70070, 70078,
  70089, 70092, 70095, 70095, 70191, 70193, 70196, 70196, 70198, 70199, 70206, 70206, 70367, 70367, 70371, 70378,
  70400, 70401, 70459, 70460, 70464, 70464, 70502, 70508, 70512, 70516, 70712, 70719, 70722, 70724, 70726, 70726,
  70750, 70750, 70835, 70840, 70842, 70842, 70847, 70848, 70850, 70851, 71090, 71093, 71100, 71101, 71103, 71104,
  71132, 71133, 71219, 71226, 71229, 71229, 71231, 71232, 71339, 71339, 71341, 71341, 71344, 71349, 71351, 71351,
  71453, 71455, 71458, 71461, 71463, 71467, 71727, 71735, 71737, 71738, 71995, 71996, 71998, 71998, 72003, 72003,
  72148, 72151, 72154, 72155, 72160, 72160, 72193, 72202, 72243, 72248, 72251, 72254, 72263, 72263, 72273, 72278,
  72281, 72283, 72330, 72342, 72344, 72345, 72752, 72758, 72760, 72765, 72767, 72767, 72850, 72871, 72874, 72880,
  72882, 72883, 72885, 72886, 73009, 73014, 73018, 73018, 73020, 73021, 73023, 73029, 73031, 73031, 73104, 73105]

set_option maxHeartbeats 800000 in
def ciRangePairs4 : List Nat := [
  73109, 73109, 73111, 73111, 73459, 73460, 78896, 78904, 92912, 92916, 92976, 92982, 92992, 92995, 94031, 94031,
  94095, 94111, 94176, 94177, 94179, 94180, 110576, 110579, 110581, 110587, 110589, 110590, 113821, 113822, 113824, 113827,
  118528, 118573, 118576, 118598, 119143, 119145, 119155, 119170, 119173, 119179, 119210, 119213, 119362, 119364, 121344, 121398,
  121403, 121452, 121461, 121461, 121476, 121476, 121499, 121503, 121505, 121519, 122880, 122886, 122888, 122904, 122907, 122913,
  122915, 122916, 122918, 122922, 123184, 123197, 123566, 123566, 123628, 123631, 125136, 125142, 125252, 125259, 127995, 127999,
  917505, 917505, 917536, 917631, 917760, 917999]

def ciRangePairs : List Nat := ciRangePairs1 ++ ciRangePairs2 ++ ciRangePairs3 ++ ciRangePairs4


def inRangePairs : List Nat → Nat → Bool
  | lo :: hi :: rest, n => (lo ≤ n && n ≤ hi) || inRangePairs rest n
  | _, _ => false

def lookupFlat : List Nat → Nat → Option Nat
  | k :: v :: rest, n => if k == n then some v else lookupFlat rest n
  | _, _ => none

/-- Unicode Cased property, as inclusive code-point ranges. -/
def isCasedN (n : Nat) : Bool := inRangePairs casedRangePairs n

/-- Unicode Case_Ignorable property, as inclusive code-point ranges. -/
def isCaseIgnorableN (n : Nat) : Bool := inRangePairs ciRangePairs n

def isCased (c : Char) : Bool := isCasedN c.toNat

def isCaseIgnorable (c : Char) : Bool := isCaseIgnorableN c.toNat

/-- Rust `char::to_lowercase` at the code-point level: ASCII fast path, the
one two-character expansion (U+0130), then the single-character table. -/
def lowerCharN (n : Nat) : List Nat :=
  if n < 128 then [if 65 ≤ n ∧ n ≤ 90 then n + 32 else n]
  else if n = 304 then [105, 775]
  else
    match lookupFlat lowerPairs n with
    | some v => [v]
    | none => [n]

def lowerChar (c : Char) : Str := (lowerCharN c.toNat).map Char.ofNat

/-- Rust `case_ignorable_then_cased`: skip Case_Ignorable characters, then
test whether the next character is Cased. -/
def caseIgnorableThenCased : Str → Bool
  | [] => false
  | c :: rest =>
    if isCaseIgnorable c then caseIgnorableThenCased rest else isCased c

/-- Rust `map_uppercase_sigma`: capital sigma lowers to final sigma exactly
when preceded (skipping Case_Ignorable) by a Cased character and not followed
(skipping Case_Ignorable) by one. -/
def mapUppercaseSigma (revPrefix suffix : Str) : Char :=
  if caseIgnorableThenCased revPrefix && !(caseIgnorableThenCased suffix)
  then 'ς' else 'σ'

/-- Body of `str::to_lowercase`: `revPrefix` holds the characters already
passed, in reverse, so that sigma sees its context in the original string. -/
def toLowercaseAux (revPrefix : Str) : Str → Str
  | [] => []
  | c :: rest =>
    (if c = 'Σ' then [mapUppercaseSigma revPrefix rest] else lowerChar c)
      ++ toLowercaseAux (c :: revPrefix) rest

/-- Rust `str::to_lowercase`. -/
def toLowercase (s : Str) : Str := toLowercaseAux [] s

/-- Rust `u128::to_string`: decimal representation, most significant digit
first. -/
def natToDecStr (n : Nat) : Str :=
  if n = 0 then ['0'] else ((Nat.digits 10 n).reverse.map Nat.digitChar)

structure Course where
  id : Str
  title : Str
  description : Str
  creator : Address
  price : Nat
  category : Option Str
  language : Option Str
  thumbnail_url : Option Str
  published : Bool
deriving DecidableEq

/-- The persistent store, split by the three key families of the code. -/
structure Store where
  courses : Str → Option Course
  titles : Str → Option Bool
  counter : Option Nat

def emptyStore : Store :=
  { courses := fun _ => none, titles := fun _ => none, counter := none }

inductive CourseError where
  | EmptyTitle
  | NonPositivePrice
  | DuplicateTitle
  | CourseIdExists
deriving DecidableEq

/-- Model of `generate_course_id`: read the counter (0 when absent), write back the
incremented value under the same key, return the incremented value. -/
def generate_course_id (st : Store) : Nat × Store :=
  let current_id := st.counter.getD 0
  let new_id := current_id + 1
  (new_id, { st with counter := some new_id })

/-- Model of `course_registry_create_course`, panics modelled as `Except.error` paired
with the store as of the panic point. -/
def course_registry_create_course (env : Env) (title description : Str)
    (price : Nat) (category language thumbnail_url : Option Str) (st : Store) :
    Except CourseError Course × Store :=
  let caller := env.current_contract_address
  let trimmed_title := trim title
  if title = [] ∨ trimmed_title = [] then
    (Except.error CourseError.EmptyTitle, st)
  else if price = 0 then
    (Except.error CourseError.NonPositivePrice, st)
  else
    let title_key := toLowercase title
    if (st.titles title_key).isSome then
      (Except.error CourseError.DuplicateTitle, st)
    else
      let idst := generate_course_id st
      let converted_id := natToDecStr idst.1
      if (idst.2.courses converted_id).isSome then
        (Except.error CourseError.CourseIdExists, idst.2)
      else
        let new_course : Course :=
          { id := converted_id, title := title, description := description,
            creator := caller, price := price, category := category,
            language := language, thumbnail_url := thumbnail_url,
            published := false }
        let st2 :=
          { idst.2 with
            courses := fun k =>
              if k = converted_id then some new_course else idst.2.courses k }
        let st3 :=
          { st2 with
            titles := fun k =>
              if k = toLowercase title then some true else st2.titles k }
        (Except.ok new_course, st3)

/-- Decimal digit value of a character, inverse of `Nat.digitChar` on 0-9. -/
def decDigitVal (c : Char) : Nat := c.toNat - 48

def decStrToNat (s : Str) : Nat := Nat.ofDigits 10 ((s.map decDigitVal).reverse)

/-- The Course value built in the success branch. -/
def mkCourse (env : Env) (t d : Str) (p : Nat) (c l u : Option Str)
    (n : Nat) : Course :=
  { id := natToDecStr (n + 1), title := t, description := d,
    creator := env.current_contract_address, price := p, category := c,
    language := l, thumbnail_url := u, published := false }

/-- The store written in the success branch. -/
def mkStore (env : Env) (t d : Str) (p : Nat) (c l u : Option Str)
    (st : Store) : Store :=
  let n := st.counter.getD 0
  { courses := fun k =>
      if k = natToDecStr (n + 1) then some (mkCourse env t d p c l u n)
      else st.courses k,
    titles := fun k =>
      if k = toLowercase t then some true else st.titles k,
    counter := some (n + 1) }

/-- Invariant of the persistent store maintained by `create_course`. -/
structure Inv (st : Store) : Prop where
  counter_bound : ∀ k c, st.courses k = some c →
    ∃ i, 1 ≤ i ∧ i ≤ st.counter.getD 0 ∧ k = natToDecStr i
  id_eq_key : ∀ k c, st.courses k = some c → c.id = k
  price_pos : ∀ k c, st.courses k = some c → 0 < c.price
  title_nonempty : ∀ k c, st.courses k = some c → trim c.title ≠ []
  marker : ∀ k c, st.courses k = some c →
    st.titles (toLowercase c.title) = some true
  title_uniq : ∀ k₁ k₂ c₁ c₂, st.courses k₁ = some c₁ →
    st.courses k₂ = some c₂ → toLowercase c₁.title = toLowercase c₂.title →
    k₁ = k₂

/-- Stores reachable from the empty store by `create_course` calls. -/
inductive Reachable : Store → Prop where
  | empty : Reachable emptyStore
  | step (env : Env) (t d : Str) (p : Nat) (c l u : Option Str) {st : Store} :
      Reachable st →
      Reachable (course_registry_create_course env t d p c l u st).2

/-- One argument tuple for a `create_course` call. -/
structure CourseInput where
  title : Str
  description : Str
  price : Nat
  category : Option Str
  language : Option Str
  thumbnail_url : Option Str
deriving DecidableEq

/-- Sequential `create_course` calls, threading the store. -/
def runCalls (env : Env) (inputs : List CourseInput) (st : Store) :
    List (Except CourseError Course) × Store :=
  match inputs with
  | [] => ([], st)
  | inp :: rest =>
    let r := course_registry_create_course env inp.title inp.description
      inp.price inp.category inp.language inp.thumbnail_url st
    let rs := runCalls env rest r.2
    (r.1 :: rs.1, rs.2)

theorem decDigitVal_digitChar (d : Nat) (h : d < 10) :
    decDigitVal (Nat.digitChar d) = d := by
  interval_cases d <;> decide

theorem decStrToNat_natToDecStr (n : Nat) : decStrToNat (natToDecStr n) = n := by
  by_cases h : n = 0
  · subst h; decide
  · simp only [natToDecStr, if_neg h, decStrToNat, List.map_reverse,
      List.map_map, List.reverse_reverse]
    have hmap : (Nat.digits 10 n).map (decDigitVal ∘ Nat.digitChar)
        = Nat.digits 10 n := by
      have : ∀ d ∈ Nat.digits 10 n, (decDigitVal ∘ Nat.digitChar) d = id d := by
        intro d hd
        exact decDigitVal_digitChar d (Nat.digits_lt_base (by norm_num) hd)
      rw [List.map_congr_left this, List.map_id]
    rw [hmap, Nat.ofDigits_digits]

theorem natToDecStr_injective : Function.Injective natToDecStr :=
  Function.LeftInverse.injective decStrToNat_natToDecStr

theorem trim_nil : trim ([] : Str) = [] := rfl

theorem title_cond_iff (t : Str) : (t = [] ∨ trim t = []) ↔ trim t = [] := by
  constructor
  · rintro (rfl | h)
    · exact trim_nil
    · exact h
  · exact fun h => Or.inr h

/-- Branch lemma: empty (after trimming) title. -/
theorem create_empty_title (env : Env) (t d : Str) (p : Nat)
    (c l u : Option Str) (st : Store) (ht : trim t = []) :
    course_registry_create_course env t d p c l u st
      = (Except.error CourseError.EmptyTitle, st) := by
  simp only [course_registry_create_course]
  rw [if_pos (Or.inr ht)]

/-- Branch lemma: zero price. -/
theorem create_zero_price (env : Env) (t d : Str) (p : Nat)
    (c l u : Option Str) (st : Store) (ht : trim t ≠ []) (hp : p = 0) :
    course_registry_create_course env t d p c l u st
      = (Except.error CourseError.NonPositivePrice, st) := by
  simp only [course_registry_create_course]
  rw [if_neg (fun hc => ht ((title_cond_iff t).mp hc)), if_pos hp]

/-- Branch lemma: duplicate title marker present. -/
theorem create_duplicate_title (env : Env) (t d : Str) (p : Nat)
    (c l u : Option Str) (st : Store) (ht : trim t ≠ []) (hp : p ≠ 0)
    (hdup : (st.titles (toLowercase t)).isSome) :
    course_registry_create_course env t d p c l u st
      = (Except.error CourseError.DuplicateTitle, st) := by
  simp only [course_registry_create_course]
  rw [if_neg (fun hc => ht ((title_cond_iff t).mp hc)), if_neg hp, if_pos hdup]

/-- Branch lemma: success. -/
theorem create_ok (env : Env) (t d : Str) (p : Nat) (c l u : Option Str)
    (st : Store) (ht : trim t ≠ []) (hp : p ≠ 0)
    (hdup : st.titles (toLowercase t) = none)
    (hid : st.courses (natToDecStr (st.counter.getD 0 + 1)) = none) :
    course_registry_create_course env t d p c l u st
      = (Except.ok (mkCourse env t d p c l u (st.counter.getD 0)),
         mkStore env t d p c l u st) := by
  simp only [course_registry_create_course, generate_course_id]
  rw [if_neg (fun hc => ht ((title_cond_iff t).mp hc)), if_neg hp,
    if_neg (by simp [hdup]), if_neg (by simp [hid])]
  rfl

/-- Branch lemma: the freshly allocated id is already taken (this branch is
shown unreachable from reachable stores below). -/
theorem create_id_exists (env : Env) (t d : Str) (p : Nat) (c l u : Option Str)
    (st : Store) (ht : trim t ≠ []) (hp : p ≠ 0)
    (hdup : st.titles (toLowercase t) = none)
    (hid : (st.courses (natToDecStr (st.counter.getD 0 + 1))).isSome) :
    course_registry_create_course env t d p c l u st
      = (Except.error CourseError.CourseIdExists,
         { st with counter := some (st.counter.getD 0 + 1) }) := by
  simp only [course_registry_create_course, generate_course_id]
  rw [if_neg (fun hc => ht ((title_cond_iff t).mp hc)), if_neg hp,
    if_neg (by simp [hdup]), if_pos (by simpa using hid)]

theorem inv_empty : Inv emptyStore := by
  constructor <;> intros <;> simp_all [emptyStore]

/-- Under the invariant the freshly allocated id is never already taken. -/
theorem Inv.fresh_id {st : Store} (h : Inv st) :
    st.courses (natToDecStr (st.counter.getD 0 + 1)) = none := by
  cases hc : st.courses (natToDecStr (st.counter.getD 0 + 1)) with
  | none => rfl
  | some c =>
    obtain ⟨i, h1, h2, hk⟩ := h.counter_bound _ c hc
    have := natToDecStr_injective hk.symm
    omega

theorem inv_step (env : Env) (t d : Str) (p : Nat) (c l u : Option Str)
    (st : Store) (hInv : Inv st) :
    Inv (course_registry_create_course env t d p c l u st).2 := by
  by_cases ht : trim t = []
  · rw [create_empty_title env t d p c l u st ht]; exact hInv
  by_cases hp : p = 0
  · rw [create_zero_price env t d p c l u st ht hp]; exact hInv
  cases hdup : st.titles (toLowercase t) with
  | some b =>
    rw [create_duplicate_title env t d p c l u st ht hp (by simp [hdup])]
    exact hInv
  | none =>
    rw [create_ok env t d p c l u st ht hp hdup hInv.fresh_id]
    set n := st.counter.getD 0 with hn
    refine ⟨?_, ?_, ?_, ?_, ?_, ?_⟩
    · intro k cc hkc
      simp only [mkStore] at hkc ⊢
      split at hkc
      · exact ⟨n + 1, by omega, by simp, by assumption⟩
      · obtain ⟨i, h1, h2, hk⟩ := hInv.counter_bound k cc hkc
        exact ⟨i, h1, by simp; omega, hk⟩
    · intro k cc hkc
      simp only [mkStore] at hkc
      split at hkc
      · cases hkc with
        | refl => exact (by assumption : k = _).symm
      · exact hInv.id_eq_key k cc hkc
    · intro k cc hkc
      simp only [mkStore] at hkc
      split at hkc
      · cases hkc; exact Nat.pos_of_ne_zero hp
      · exact hInv.price_pos k cc hkc
    · intro k cc hkc
      simp only [mkStore] at hkc
      split at hkc
      · cases hkc; exact ht
      · exact hInv.title_nonempty k cc hkc
    · intro k cc hkc
      simp only [mkStore] at hkc ⊢
      split at hkc
      · cases hkc
        simp [mkCourse]
      · rw [hInv.marker k cc hkc]
        split <;> rfl
    · intro k₁ k₂ c₁ c₂ h₁ h₂ heq
      simp only [mkStore] at h₁ h₂
      split at h₁ <;> split at h₂
      · rename_i hk1 hk2
        rw [hk1, hk2]
      · cases h₁
        have hm := hInv.marker k₂ c₂ h₂
        rw [mkCourse] at heq
        simp only at heq
        rw [← heq] at hm
        rw [hdup] at hm
        cases hm
      · cases h₂
        have hm := hInv.marker k₁ c₁ h₁
        rw [mkCourse] at heq
        simp only at heq
        rw [heq] at hm
        rw [hdup] at hm
        cases hm
      · exact hInv.title_uniq k₁ k₂ c₁ c₂ h₁ h₂ heq

theorem reachable_inv {st : Store} (h : Reachable st) : Inv st := by
  induction h with
  | empty => exact inv_empty
  | step env t d p c l u hr ih => exact inv_step env t d p c l u _ ih

/-- Inversion: a successful call can only come from the success branch. -/
theorem create_ok_inv (env : Env) (t d : Str) (p : Nat) (c l u : Option Str)
    (st st' : Store) (course : Course)
    (h : course_registry_create_course env t d p c l u st
      = (Except.ok course, st')) :
    trim t ≠ [] ∧ p ≠ 0 ∧ st.titles (toLowercase t) = none
    ∧ st.courses (natToDecStr (st.counter.getD 0 + 1)) = none
    ∧ course = mkCourse env t d p c l u (st.counter.getD 0)
    ∧ st' = mkStore env t d p c l u st := by
  by_cases ht : trim t = []
  · rw [create_empty_title env t d p c l u st ht] at h
    simp [Prod.ext_iff] at h
  by_cases hp : p = 0
  · rw [create_zero_price env t d p c l u st ht hp] at h
    simp [Prod.ext_iff] at h
  cases hdup : st.titles (toLowercase t) with
  | some b =>
    rw [create_duplicate_title env t d p c l u st ht hp (by simp [hdup])] at h
    simp [Prod.ext_iff] at h
  | none =>
    cases hid : st.courses (natToDecStr (st.counter.getD 0 + 1)) with
    | some cc =>
      rw [create_id_exists env t d p c l u st ht hp hdup (by simp [hid])] at h
      simp [Prod.ext_iff] at h
    | none =>
      rw [create_ok env t d p c l u st ht hp hdup hid] at h
      simp only [Prod.ext_iff, Except.ok.injEq] at h
      exact ⟨ht, hp, rfl, rfl, h.1.symm, h.2.symm⟩

/-- Exhaustive case analysis of a call on a store satisfying the invariant. -/
theorem create_result_cases (env : Env) (t d : Str) (p : Nat)
    (c l u : Option Str) (st : Store) (hInv : Inv st) :
    (trim t = []
      ∧ course_registry_create_course env t d p c l u st
          = (Except.error CourseError.EmptyTitle, st))
    ∨ (trim t ≠ [] ∧ p = 0
      ∧ course_registry_create_course env t d p c l u st
          = (Except.error CourseError.NonPositivePrice, st))
    ∨ (trim t ≠ [] ∧ p ≠ 0 ∧ st.titles (toLowercase t) ≠ none
      ∧ course_registry_create_course env t d p c l u st
          = (Except.error CourseError.DuplicateTitle, st))
    ∨ (trim t ≠ [] ∧ p ≠ 0 ∧ st.titles (toLowercase t) = none
      ∧ course_registry_create_course env t d p c l u st
          = (Except.ok (mkCourse env t d p c l u (st.counter.getD 0)),
             mkStore env t d p c l u st)) := by
  by_cases ht : trim t = []
  · exact Or.inl ⟨ht, create_empty_title env t d p c l u st ht⟩
  by_cases hp : p = 0
  · exact Or.inr (Or.inl ⟨ht, hp, create_zero_price env t d p c l u st ht hp⟩)
  cases hdup : st.titles (toLowercase t) with
  | some b =>
    exact Or.inr (Or.inr (Or.inl ⟨ht, hp, by simp [hdup],
      create_duplicate_title env t d p c l u st ht hp (by simp [hdup])⟩))
  | none =>
    exact Or.inr (Or.inr (Or.inr ⟨ht, hp, rfl,
      create_ok env t d p c l u st ht hp hdup hInv.fresh_id⟩))

/-- Claim C1: for every successful call of `create_course`, the `creator`
field of the returned and of the stored Course equals the invoking principal
taken from the execution context. -/
theorem C1_creator_is_caller (env : Env) (t d : Str) (p : Nat)
    (c l u : Option Str) (st st' : Store) (course : Course)
    (h : course_registry_create_course env t d p c l u st
      = (Except.ok course, st')) :
    course.creator = env.current_contract_address
    ∧ ∃ cc, st'.courses course.id = some cc
        ∧ cc.creator = env.current_contract_address := by
  obtain ⟨ht, hp, hdup, hid, hcourse, hst⟩ :=
    create_ok_inv env t d p c l u st st' course h
  subst hcourse
  subst hst
  refine ⟨rfl, mkCourse env t d p c l u (st.counter.getD 0), ?_, rfl⟩
  simp [mkStore, mkCourse]

/-- Claim C1 witness. -/
theorem C1_creator_is_caller_witness :
    (mkCourse ⟨7⟩ ['a'] [] 5 none none none 0).creator
      = (⟨7⟩ : Env).current_contract_address
    ∧ ∃ cc, (mkStore ⟨7⟩ ['a'] [] 5 none none none emptyStore).courses
          (mkCourse ⟨7⟩ ['a'] [] 5 none none none 0).id = some cc
        ∧ cc.creator = (⟨7⟩ : Env).current_contract_address :=
  C1_creator_is_caller ⟨7⟩ ['a'] [] 5 none none none emptyStore
    (mkStore ⟨7⟩ ['a'] [] 5 none none none emptyStore)
    (mkCourse ⟨7⟩ ['a'] [] 5 none none none 0) (by rfl)

/-- Claim C2: on a reachable store, any input with non-empty trimmed title,
non-zero price (the maximum u128 value included) and unused lower-cased title
succeeds and returns the Course with id the decimal string of the pre-call
counter plus one, `published = false`, and all supplied fields verbatim. -/
theorem C2_valid_inputs_succeed (env : Env) (t d : Str) (p : Nat)
    (c l u : Option Str) (st : Store) (hre : Reachable st)
    (ht : trim t ≠ []) (hp : p ≠ 0)
    (hdup : st.titles (toLowercase t) = none) :
    (course_registry_create_course env t d p c l u st).1
      = Except.ok
          { id := natToDecStr (st.counter.getD 0 + 1), title := t,
            description := d, creator := env.current_contract_address,
            price := p, category := c, language := l, thumbnail_url := u,
            published := false } := by
  rw [create_ok env t d p c l u st ht hp hdup (reachable_inv hre).fresh_id]
  rfl

/-- Claim C2 witness, at the maximum unsigned 128-bit price. -/
theorem C2_valid_inputs_succeed_witness :
    (course_registry_create_course ⟨7⟩ ['a'] ['d'] (2 ^ 128 - 1)
        (some ['c']) none none emptyStore).1
      = Except.ok
          { id := natToDecStr (emptyStore.counter.getD 0 + 1), title := ['a'],
            description := ['d'], creator := (⟨7⟩ : Env).current_contract_address,
            price := 2 ^ 128 - 1, category := some ['c'], language := none,
            thumbnail_url := none, published := false } :=
  C2_valid_inputs_succeed ⟨7⟩ ['a'] ['d'] (2 ^ 128 - 1) (some ['c']) none none
    emptyStore Reachable.empty (by decide) (by norm_num) (by rfl)

/-- Claim C3: on a reachable store the checks run in order with these exact
conditions: `EmptyTitle` iff the trimmed title is empty; otherwise
`NonPositivePrice` iff the price is zero; otherwise `DuplicateTitle` iff the
store holds a marker for the lower-cased title; otherwise success. -/
theorem C3_check_order (env : Env) (t d : Str) (p : Nat) (c l u : Option Str)
    (st : Store) (hre : Reachable st) :
    ((course_registry_create_course env t d p c l u st).1
        = Except.error CourseError.EmptyTitle ↔ trim t = [])
    ∧ (trim t ≠ [] →
        ((course_registry_create_course env t d p c l u st).1
            = Except.error CourseError.NonPositivePrice ↔ p = 0))
    ∧ (trim t ≠ [] → p ≠ 0 →
        ((course_registry_create_course env t d p c l u st).1
            = Except.error CourseError.DuplicateTitle
          ↔ st.titles (toLowercase t) ≠ none))
    ∧ (trim t ≠ [] → p ≠ 0 → st.titles (toLowercase t) = none →
        ∃ course, (course_registry_create_course env t d p c l u st).1
          = Except.ok course) := by
  rcases create_result_cases env t d p c l u st (reachable_inv hre) with
    ⟨ht, hres⟩ | ⟨ht, hp, hres⟩ | ⟨ht, hp, hdup, hres⟩ | ⟨ht, hp, hdup, hres⟩ <;>
    rw [hres] <;>
    refine ⟨?_, ?_, ?_, ?_⟩ <;> simp_all

/-- Claim C3 witness. -/
theorem C3_check_order_witness :
    ((course_registry_create_course ⟨7⟩ [' '] [] 5 none none none
          emptyStore).1 = Except.error CourseError.EmptyTitle ↔
        trim [' '] = [])
    ∧ (trim [' '] ≠ [] →
        ((course_registry_create_course ⟨7⟩ [' '] [] 5 none none none
            emptyStore).1 = Except.error CourseError.NonPositivePrice ↔ 5 = 0))
    ∧ (trim [' '] ≠ [] → 5 ≠ 0 →
        ((course_registry_create_course ⟨7⟩ [' '] [] 5 none none none
            emptyStore).1 = Except.error CourseError.DuplicateTitle
          ↔ emptyStore.titles (toLowercase [' ']) ≠ none))
    ∧ (trim [' '] ≠ [] → 5 ≠ 0 → emptyStore.titles (toLowercase [' ']) = none →
        ∃ course, (course_registry_create_course ⟨7⟩ [' '] [] 5 none none none
          emptyStore).1 = Except.ok course) :=
  C3_check_order ⟨7⟩ [' '] [] 5 none none none emptyStore Reachable.empty

/-- Claim C4: whenever the call fails with one of the three validation
errors, the store is returned exactly as it was: no course record, no title
marker, and no counter advance. -/
theorem C4_validation_preserves_store (env : Env) (t d : Str) (p : Nat)
    (c l u : Option Str) (st : Store)
    (h : (course_registry_create_course env t d p c l u st).1
        = Except.error CourseError.EmptyTitle
      ∨ (course_registry_create_course env t d p c l u st).1
        = Except.error CourseError.NonPositivePrice
      ∨ (course_registry_create_course env t d p c l u st).1
        = Except.error CourseError.DuplicateTitle) :
    (course_registry_create_course env t d p c l u st).2 = st := by
  by_cases ht : trim t = []
  · rw [create_empty_title env t d p c l u st ht]
  by_cases hp : p = 0
  · rw [create_zero_price env t d p c l u st ht hp]
  cases hdup : st.titles (toLowercase t) with
  | some b =>
    rw [create_duplicate_title env t d p c l u st ht hp (by simp [hdup])]
  | none =>
    exfalso
    cases hid : st.courses (natToDecStr (st.counter.getD 0 + 1)) with
    | some cc =>
      rw [create_id_exists env t d p c l u st ht hp hdup (by simp [hid])] at h
      simp at h
    | none =>
      rw [create_ok env t d p c l u st ht hp hdup hid] at h
      simp at h

/-- Claim C4 witness. -/
theorem C4_validation_preserves_store_witness :
    (course_registry_create_course ⟨7⟩ [' ', ' '] [] 5 none none none
      emptyStore).2 = emptyStore :=
  C4_validation_preserves_store ⟨7⟩ [' ', ' '] [] 5 none none none emptyStore
    (Or.inl (by rfl))

/-- Claim C5: on every reachable store a call either returns a Course or
fails with one of exactly the three validation errors; the branch for an
already-existing course record under the fresh id is never taken. -/
theorem C5_result_totality (env : Env) (t d : Str) (p : Nat)
    (c l u : Option Str) (st : Store) (hre : Reachable st) :
    ((∃ course, (course_registry_create_course env t d p c l u st).1
        = Except.ok course)
      ∨ (course_registry_create_course env t d p c l u st).1
        = Except.error CourseError.EmptyTitle
      ∨ (course_registry_create_course env t d p c l u st).1
        = Except.error CourseError.NonPositivePrice
      ∨ (course_registry_create_course env t d p c l u st).1
        = Except.error CourseError.DuplicateTitle)
    ∧ (course_registry_create_course env t d p c l u st).1
        ≠ Except.error CourseError.CourseIdExists := by
  rcases create_result_cases env t d p c l u st (reachable_inv hre) with
    ⟨ht, hres⟩ | ⟨ht, hp, hres⟩ | ⟨ht, hp, hdup, hres⟩ | ⟨ht, hp, hdup, hres⟩ <;>
    rw [hres] <;> simp

/-- Claim C5 witness. -/
theorem C5_result_totality_witness :
    ((∃ course, (course_registry_create_course ⟨7⟩ ['a'] [] 5 none none none
        emptyStore).1 = Except.ok course)
      ∨ (course_registry_create_course ⟨7⟩ ['a'] [] 5 none none none
          emptyStore).1 = Except.error CourseError.EmptyTitle
      ∨ (course_registry_create_course ⟨7⟩ ['a'] [] 5 none none none
          emptyStore).1 = Except.error CourseError.NonPositivePrice
      ∨ (course_registry_create_course ⟨7⟩ ['a'] [] 5 none none none
          emptyStore).1 = Except.error CourseError.DuplicateTitle)
    ∧ (course_registry_create_course ⟨7⟩ ['a'] [] 5 none none none
        emptyStore).1 ≠ Except.error CourseError.CourseIdExists :=
  C5_result_totality ⟨7⟩ ['a'] [] 5 none none none emptyStore Reachable.empty

/-- Claim C8: `generate_course_id` reads the counter (0 when absent), writes
back the value plus one under the counter key and nothing else, returns the
incremented value, and a second call in the same context returns the value
incremented twice (no lost update). -/
theorem C8_generate_id_spec (st : Store) :
    (generate_course_id st).1 = st.counter.getD 0 + 1
    ∧ (generate_course_id st).2.counter = some (st.counter.getD 0 + 1)
    ∧ (generate_course_id st).2.courses = st.courses
    ∧ (generate_course_id st).2.titles = st.titles
    ∧ (generate_course_id (generate_course_id st).2).1
        = st.counter.getD 0 + 2 :=
  ⟨rfl, rfl, rfl, rfl, rfl⟩

/-- Claim C9: after any successful call, reading the store at the course key
of the returned id yields exactly the returned Course. -/
theorem C9_round_trip (env : Env) (t d : Str) (p : Nat) (c l u : Option Str)
    (st st' : Store) (course : Course)
    (h : course_registry_create_course env t d p c l u st
      = (Except.ok course, st')) :
    st'.courses course.id = some course := by
  obtain ⟨ht, hp, hdup, hid, hcourse, hst⟩ :=
    create_ok_inv env t d p c l u st st' course h
  subst hcourse
  subst hst
  simp [mkStore, mkCourse]

/-- Claim C9 witness. -/
theorem C9_round_trip_witness :
    (mkStore ⟨7⟩ ['a'] [] 5 none none none emptyStore).courses
        (mkCourse ⟨7⟩ ['a'] [] 5 none none none 0).id
      = some (mkCourse ⟨7⟩ ['a'] [] 5 none none none 0) :=
  C9_round_trip ⟨7⟩ ['a'] [] 5 none none none emptyStore
    (mkStore ⟨7⟩ ['a'] [] 5 none none none emptyStore)
    (mkCourse ⟨7⟩ ['a'] [] 5 none none none 0) (by rfl)

theorem runCalls_spec (env : Env) (inputs : List CourseInput) (st : Store)
    (hInv : Inv st)
    (hvalid : ∀ inp ∈ inputs, trim inp.title ≠ [] ∧ inp.price ≠ 0)
    (hfresh : ∀ inp ∈ inputs, st.titles (toLowercase inp.title) = none)
    (hdist : inputs.Pairwise
      (fun a b => toLowercase a.title ≠ toLowercase b.title)) :
    (runCalls env inputs st).1.map (fun r => r.map Course.id)
      = (List.range inputs.length).map
          (fun i => Except.ok (natToDecStr (st.counter.getD 0 + 1 + i))) := by
  induction inputs generalizing st with
  | nil => simp [runCalls]
  | cons inp rest ih =>
    obtain ⟨ht, hp⟩ := hvalid inp (by simp)
    have hdup := hfresh inp (by simp)
    have hok := create_ok env inp.title inp.description inp.price inp.category
      inp.language inp.thumbnail_url st ht hp hdup hInv.fresh_id
    have hInv1 : Inv (mkStore env inp.title inp.description inp.price
        inp.category inp.language inp.thumbnail_url st) := by
      have hstep := inv_step env inp.title inp.description inp.price
        inp.category inp.language inp.thumbnail_url st hInv
      rw [hok] at hstep
      exact hstep
    have hdist1 := List.pairwise_cons.mp hdist
    have hfresh1 : ∀ r ∈ rest,
        (mkStore env inp.title inp.description inp.price inp.category
          inp.language inp.thumbnail_url st).titles (toLowercase r.title)
          = none := by
      intro r hr
      simp only [mkStore]
      rw [if_neg (fun he => (hdist1.1 r hr) he.symm)]
      exact hfresh r (by simp [hr])
    have hrest := ih (mkStore env inp.title inp.description inp.price
        inp.category inp.language inp.thumbnail_url st) hInv1
      (fun r hr => hvalid r (by simp [hr])) hfresh1 hdist1.2
    simp only [runCalls, hok, List.map_cons, List.length_cons, hrest]
    rw [List.range_succ_eq_map, List.map_cons, List.map_map]
    congr 1
    have hc : (mkStore env inp.title inp.description inp.price inp.category
        inp.language inp.thumbnail_url st).counter.getD 0
        = st.counter.getD 0 + 1 := rfl
    rw [hc]
    apply List.map_congr_left
    intro i _
    simp only [Function.comp]
    congr 2
    omega

/-- Claim C6: starting from the empty store, sequential calls with valid
inputs and pairwise case-insensitively distinct titles all succeed and yield
the decimal ids 1, 2, ..., N in call order. -/
theorem C6_sequential_ids (env : Env) (inputs : List CourseInput)
    (hvalid : ∀ inp ∈ inputs, trim inp.title ≠ [] ∧ inp.price ≠ 0)
    (hdist : inputs.Pairwise
      (fun a b => toLowercase a.title ≠ toLowercase b.title)) :
    (runCalls env inputs emptyStore).1.map (fun r => r.map Course.id)
      = (List.range inputs.length).map
          (fun i => Except.ok (natToDecStr (i + 1))) := by
  rw [runCalls_spec env inputs emptyStore inv_empty hvalid
    (fun _ _ => rfl) hdist]
  apply List.map_congr_left
  intro i _
  have h0 : emptyStore.counter.getD 0 = 0 := rfl
  rw [h0]
  have h1 : 0 + 1 + i = i + 1 := by omega
  rw [h1]

/-- Claim C6 witness: three concrete calls yield ids 1, 2, 3. -/
theorem C6_sequential_ids_witness :
    (runCalls ⟨7⟩
        [⟨['a'], [], 3, none, none, none⟩, ⟨['B'], [], 4, none, none, none⟩,
          ⟨['c'], [], 5, none, none, none⟩] emptyStore).1.map
        (fun r => r.map Course.id)
      = (List.range 3).map (fun i => Except.ok (natToDecStr (i + 1))) :=
  C6_sequential_ids ⟨7⟩
    [⟨['a'], [], 3, none, none, none⟩, ⟨['B'], [], 4, none, none, none⟩,
      ⟨['c'], [], 5, none, none, none⟩]
    (by decide) (by decide)

theorem char_toNat_ofNat_valid (n : Nat) (h : n.isValidChar) :
    (Char.ofNat n).toNat = n := by
  rw [Char.ofNat, dif_pos h]
  rfl

/-- Every value written by the lowercase table is a non-whitespace valid
code point. -/
abbrev lowerOutOk (v : Nat) : Prop := rustIsWhitespaceN v = false ∧
    (v < 55296 ∨ (57344 ≤ v ∧ v < 1114112))

set_option maxRecDepth 4000 in
theorem lp1_ok : ∀ v ∈ lowerPairs1, lowerOutOk v := by decide

set_option maxRecDepth 4000 in
theorem lp2_ok : ∀ v ∈ lowerPairs2, lowerOutOk v := by decide

set_option maxRecDepth 4000 in
theorem lp3_ok : ∀ v ∈ lowerPairs3, lowerOutOk v := by decide

set_option maxRecDepth 4000 in
theorem lp4_ok : ∀ v ∈ lowerPairs4, lowerOutOk v := by decide

set_option maxRecDepth 4000 in
theorem lp5_ok : ∀ v ∈ lowerPairs5, lowerOutOk v := by decide

set_option maxRecDepth 4000 in
theorem lp6_ok : ∀ v ∈ lowerPairs6, lowerOutOk v := by decide

set_option maxRecDepth 4000 in
theorem lp7_ok : ∀ v ∈ lowerPairs7, lowerOutOk v := by decide

set_option maxRecDepth 4000 in
theorem lp8_ok : ∀ v ∈ lowerPairs8, lowerOutOk v := by decide

set_option maxRecDepth 4000 in
theorem lp9_ok : ∀ v ∈ lowerPairs9, lowerOutOk v := by decide

set_option maxRecDepth 4000 in
theorem lp10_ok : ∀ v ∈ lowerPairs10, lowerOutOk v := by decide

set_option maxRecDepth 4000 in
theorem lp11_ok : ∀ v ∈ lowerPairs11, lowerOutOk v := by decide

theorem lowerPairs_ok : ∀ v ∈ lowerPairs, lowerOutOk v := by
  intro v hv
  simp only [lowerPairs, List.mem_append] at hv
  rcases hv with ((((((((((h|h)|h)|h)|h)|h)|h)|h)|h)|h)|h)
  exacts [lp1_ok v h, lp2_ok v h, lp3_ok v h, lp4_ok v h, lp5_ok v h,
    lp6_ok v h, lp7_ok v h, lp8_ok v h, lp9_ok v h, lp10_ok v h, lp11_ok v h]

set_option maxRecDepth 4000 in
theorem ws_concrete : ∀ n ∈ wsCharList, isCasedN n = false ∧
    isCaseIgnorableN n = false ∧ lowerCharN n = [n] ∧ n ≠ 931 := by decide

theorem wsN_mem (n : Nat) (h : rustIsWhitespaceN n = true) : n ∈ wsCharList := by
  rw [rustIsWhitespaceN, List.any_eq_true] at h
  obtain ⟨k, hk, hkn⟩ := h
  rw [beq_iff_eq] at hkn
  rwa [hkn] at hk

theorem wsN_facts (n : Nat) (h : rustIsWhitespaceN n = true) :
    isCasedN n = false ∧ isCaseIgnorableN n = false ∧ lowerCharN n = [n]
      ∧ n ≠ 931 :=
  ws_concrete n (wsN_mem n h)

theorem wsN_false_of_bounds (m : Nat) (h1 : 33 ≤ m) (h2 : m ≤ 132) :
    rustIsWhitespaceN m = false := by
  cases hw : rustIsWhitespaceN m
  · rfl
  · have hm := wsN_mem m hw
    simp only [wsCharList, List.mem_cons, List.not_mem_nil, or_false] at hm
    omega

theorem ws_not_sigma (c : Char) (h : rustIsWhitespace c = true) : c ≠ 'Σ' := by
  intro he
  have hn := (wsN_facts c.toNat h).2.2.2
  rw [he] at hn
  exact hn rfl

theorem ws_not_cased (c : Char) (h : rustIsWhitespace c = true) :
    isCased c = false :=
  (wsN_facts c.toNat h).1

theorem ws_not_ci (c : Char) (h : rustIsWhitespace c = true) :
    isCaseIgnorable c = false :=
  (wsN_facts c.toNat h).2.1

theorem ws_lowerChar (c : Char) (h : rustIsWhitespace c = true) :
    lowerChar c = [c] := by
  unfold lowerChar
  rw [(wsN_facts c.toNat h).2.2.1]
  simp [Char.ofNat_toNat]

theorem lookupFlat_mem : ∀ (l : List Nat) (n v : Nat),
    lookupFlat l n = some v → v ∈ l
  | k :: v' :: rest, n, v, h => by
    unfold lookupFlat at h
    split at h
    · cases h
      simp
    · have hm := lookupFlat_mem rest n v h
      simp [hm]
  | [], _, _, h => by simp [lookupFlat] at h
  | [k], _, _, h => by simp [lookupFlat] at h

theorem lowerChar_head (c : Char) (h : rustIsWhitespace c = false) :
    ∃ m ms, lowerChar c = m :: ms ∧ rustIsWhitespace m = false := by
  unfold lowerChar lowerCharN
  by_cases h1 : c.toNat < 128
  · rw [if_pos h1]
    by_cases h2 : 65 ≤ c.toNat ∧ c.toNat ≤ 90
    · rw [if_pos h2]
      refine ⟨Char.ofNat (c.toNat + 32), [], by simp, ?_⟩
      have hv : (c.toNat + 32).isValidChar := Or.inl (by omega)
      unfold rustIsWhitespace
      rw [char_toNat_ofNat_valid _ hv]
      exact wsN_false_of_bounds _ (by omega) (by omega)
    · rw [if_neg h2]
      refine ⟨c, [], ?_, h⟩
      simp [Char.ofNat_toNat]
  · rw [if_neg h1]
    by_cases h3 : c.toNat = 304
    · rw [if_pos h3]
      refine ⟨Char.ofNat 105, [Char.ofNat 775], by simp, by decide⟩
    · rw [if_neg h3]
      cases hf : lookupFlat lowerPairs c.toNat with
      | none =>
        refine ⟨c, [], ?_, h⟩
        simp [Char.ofNat_toNat]
      | some v =>
        obtain ⟨hw, hval⟩ := lowerPairs_ok v (lookupFlat_mem lowerPairs c.toNat v hf)
        refine ⟨Char.ofNat v, [], by simp, ?_⟩
        unfold rustIsWhitespace
        rw [char_toNat_ofNat_valid v hval]
        exact hw

theorem mapSigma_not_ws (r s : Str) :
    rustIsWhitespace (mapUppercaseSigma r s) = false := by
  unfold mapUppercaseSigma
  split <;> decide

theorem mapSigma_congr (r r' s s' : Str)
    (hr : caseIgnorableThenCased r = caseIgnorableThenCased r')
    (hs : caseIgnorableThenCased s = caseIgnorableThenCased s') :
    mapUppercaseSigma r s = mapUppercaseSigma r' s' := by
  unfold mapUppercaseSigma
  rw [hr, hs]

theorem ctc_ws (l : Str) (h : ∀ c ∈ l, rustIsWhitespace c = true) :
    caseIgnorableThenCased l = false := by
  induction l with
  | nil => rfl
  | cons c rest ih =>
    unfold caseIgnorableThenCased
    rw [ws_not_ci c (h c (by simp))]
    simpa using ws_not_cased c (h c (by simp))

theorem ctc_append_congr (x r r' : Str)
    (h : caseIgnorableThenCased r = caseIgnorableThenCased r') :
    caseIgnorableThenCased (x ++ r) = caseIgnorableThenCased (x ++ r') := by
  induction x with
  | nil => simpa using h
  | cons c x' ih =>
    simp only [List.cons_append]
    unfold caseIgnorableThenCased
    split
    · exact ih
    · rfl

theorem ctc_append_ws (x w : Str) (hw : ∀ c ∈ w, rustIsWhitespace c = true) :
    caseIgnorableThenCased (x ++ w) = caseIgnorableThenCased x := by
  have h0 : caseIgnorableThenCased w = caseIgnorableThenCased ([] : Str) := by
    rw [ctc_ws w hw]
    rfl
  have hc := ctc_append_congr x w [] h0
  simpa using hc

theorem toLowercaseAux_cons (rev : Str) (c : Char) (rest : Str) :
    toLowercaseAux rev (c :: rest)
      = (if c = 'Σ' then [mapUppercaseSigma rev rest] else lowerChar c)
        ++ toLowercaseAux (c :: rev) rest := rfl

theorem toLowercaseAux_ws (rev l : Str)
    (h : ∀ c ∈ l, rustIsWhitespace c = true) :
    toLowercaseAux rev l = l := by
  induction l generalizing rev with
  | nil => rfl
  | cons c rest ih =>
    unfold toLowercaseAux
    rw [if_neg (ws_not_sigma c (h c (by simp))), ws_lowerChar c (h c (by simp)),
      ih (c :: rev) (fun x hx => h x (by simp [hx]))]
    rfl

theorem toLowercaseAux_ws_prefix (a : Str) : ∀ (rev rest : Str),
    (∀ c ∈ a, rustIsWhitespace c = true) →
    toLowercaseAux rev (a ++ rest) = a ++ toLowercaseAux (a.reverse ++ rev) rest := by
  induction a with
  | nil =>
    intro rev rest h
    simp
  | cons w a' ih =>
    intro rev rest h
    simp only [List.cons_append]
    rw [toLowercaseAux_cons,
      if_neg (ws_not_sigma w (h w (by simp))), ws_lowerChar w (h w (by simp)),
      ih (w :: rev) rest (fun x hx => h x (by simp [hx]))]
    simp [List.reverse_cons, List.append_assoc]

theorem toLowercaseAux_congr (m : Str) : ∀ (rev rev' b b' : Str),
    caseIgnorableThenCased rev = caseIgnorableThenCased rev' →
    (∀ c ∈ b, rustIsWhitespace c = true) →
    (∀ c ∈ b', rustIsWhitespace c = true) →
    ∃ core, toLowercaseAux rev (m ++ b) = core ++ b
      ∧ toLowercaseAux rev' (m ++ b') = core ++ b' := by
  induction m with
  | nil =>
    intro rev rev' b b' hctc hb hb'
    refine ⟨[], ?_, ?_⟩
    · simpa using toLowercaseAux_ws rev b hb
    · simpa using toLowercaseAux_ws rev' b' hb'
  | cons c m' ih =>
    intro rev rev' b b' hctc hb hb'
    obtain ⟨core', h1, h2⟩ := ih (c :: rev) (c :: rev') b b'
      (ctc_append_congr [c] rev rev' hctc) hb hb'
    refine ⟨(if c = 'Σ' then [mapUppercaseSigma rev (m' ++ b)] else lowerChar c)
      ++ core', ?_, ?_⟩
    · show toLowercaseAux rev ((c :: m') ++ b) = _
      simp only [List.cons_append]
      unfold toLowercaseAux
      rw [h1, List.append_assoc]
    · show toLowercaseAux rev' ((c :: m') ++ b') = _
      simp only [List.cons_append]
      unfold toLowercaseAux
      rw [h2]
      have hhd : (if c = 'Σ' then [mapUppercaseSigma rev' (m' ++ b')]
            else lowerChar c)
          = (if c = 'Σ' then [mapUppercaseSigma rev (m' ++ b)]
            else lowerChar c) := by
        split
        · congr 1
          apply mapSigma_congr
          · exact hctc.symm
          · rw [ctc_append_ws m' b' hb', ctc_append_ws m' b hb]
        · rfl
      rw [hhd, List.append_assoc]

theorem toLowercase_ws_split (a m b : Str)
    (ha : ∀ c ∈ a, rustIsWhitespace c = true)
    (hb : ∀ c ∈ b, rustIsWhitespace c = true) :
    toLowercase (a ++ m ++ b) = a ++ toLowercase m ++ b := by
  unfold toLowercase
  rw [List.append_assoc, toLowercaseAux_ws_prefix a [] (m ++ b) ha]
  have hrev : ∀ c ∈ a.reverse ++ ([] : Str), rustIsWhitespace c = true := by
    intro c hc
    simp only [List.append_nil, List.mem_reverse] at hc
    exact ha c hc
  obtain ⟨core, h1, h2⟩ := toLowercaseAux_congr m (a.reverse ++ []) [] b []
    (by rw [ctc_ws _ hrev]; rfl) hb (fun c hc => absurd hc (List.not_mem_nil c))
  simp only [List.append_nil] at h2
  rw [h1, h2, List.append_assoc]

theorem toLowercase_head (c : Char) (rest : Str)
    (hc : rustIsWhitespace c = false) :
    ∃ m0 ms, toLowercase (c :: rest) = m0 :: ms
      ∧ rustIsWhitespace m0 = false := by
  unfold toLowercase toLowercaseAux
  by_cases hs : c = 'Σ'
  · rw [if_pos hs]
    exact ⟨mapUppercaseSigma [] rest, toLowercaseAux (c :: []) rest, rfl,
      mapSigma_not_ws [] rest⟩
  · rw [if_neg hs]
    obtain ⟨m0, ms0, he, hw⟩ := lowerChar_head c hc
    rw [he]
    exact ⟨m0, ms0 ++ toLowercaseAux (c :: []) rest, rfl, hw⟩

theorem trimStart_decomp (s : Str) :
    (∀ c ∈ s.takeWhile rustIsWhitespace, rustIsWhitespace c)
    ∧ s = s.takeWhile rustIsWhitespace ++ trimStart s :=
  ⟨fun _ hc => List.mem_takeWhile_imp hc,
   (List.takeWhile_append_dropWhile rustIsWhitespace s).symm⟩

theorem trimEnd_decomp (u : Str) :
    (∀ c ∈ (u.reverse.takeWhile rustIsWhitespace).reverse, rustIsWhitespace c)
    ∧ u = trimEnd u ++ (u.reverse.takeWhile rustIsWhitespace).reverse := by
  constructor
  · intro c hc
    rw [List.mem_reverse] at hc
    exact List.mem_takeWhile_imp hc
  · calc u = u.reverse.reverse := (List.reverse_reverse u).symm
    _ = (u.reverse.takeWhile rustIsWhitespace
          ++ u.reverse.dropWhile rustIsWhitespace).reverse := by
        rw [List.takeWhile_append_dropWhile]
    _ = (u.reverse.dropWhile rustIsWhitespace).reverse
          ++ (u.reverse.takeWhile rustIsWhitespace).reverse := by
        rw [List.reverse_append]
    _ = trimEnd u ++ (u.reverse.takeWhile rustIsWhitespace).reverse := rfl

theorem trim_decomp (s : Str) :
    ∃ a b, (∀ c ∈ a, rustIsWhitespace c) ∧ (∀ c ∈ b, rustIsWhitespace c)
      ∧ s = a ++ trim s ++ b := by
  obtain ⟨ha, hs⟩ := trimStart_decomp s
  obtain ⟨hb, hu⟩ := trimEnd_decomp (trimStart s)
  refine ⟨s.takeWhile rustIsWhitespace,
    ((trimStart s).reverse.takeWhile rustIsWhitespace).reverse, ha, hb, ?_⟩
  rw [List.append_assoc]
  simp only [trim]
  rw [← hu]
  exact hs

theorem trim_eq_nil_iff (s : Str) :
    trim s = [] ↔ ∀ c ∈ s, rustIsWhitespace c := by
  constructor
  · intro h c hc
    obtain ⟨a, b, ha, hb, hs⟩ := trim_decomp s
    rw [h] at hs
    simp only [List.append_nil] at hs
    rw [hs] at hc
    rcases List.mem_append.mp hc with hc' | hc'
    · exact ha c hc'
    · exact hb c hc'
  · intro h
    have h1 : trimStart s = [] := List.dropWhile_eq_nil_iff.mpr h
    simp only [trim, h1]
    rfl

theorem dropWhile_head_false (p : Char → Bool) (l : Str) :
    ∀ (c : Char) (rest : Str), l.dropWhile p = c :: rest → p c = false := by
  induction l with
  | nil => intro c rest h; simp at h
  | cons x xs ih =>
    intro c rest h
    rw [List.dropWhile_cons] at h
    split at h
    · exact ih c rest h
    · rename_i hpx
      simp only [List.cons.injEq] at h
      obtain ⟨rfl, rfl⟩ := h
      simpa using hpx

theorem trim_head_not_ws (s : Str) (c : Char) (rest : Str)
    (h : trim s = c :: rest) : rustIsWhitespace c = false := by
  obtain ⟨hb, hu⟩ := trimEnd_decomp (trimStart s)
  simp only [trim] at h
  rw [h, List.cons_append] at hu
  exact dropWhile_head_false rustIsWhitespace s c _ hu

theorem ws_append_cancel (a1 : Str) (a2 u1 u2 : Str)
    (ha1 : ∀ c ∈ a1, rustIsWhitespace c) (ha2 : ∀ c ∈ a2, rustIsWhitespace c)
    (hu1 : ∀ c rest, u1 = c :: rest → rustIsWhitespace c = false)
    (hu2 : ∀ c rest, u2 = c :: rest → rustIsWhitespace c = false)
    (h : a1 ++ u1 = a2 ++ u2) : a1 = a2 ∧ u1 = u2 := by
  induction a1 generalizing a2 with
  | nil =>
    cases a2 with
    | nil => simpa using h
    | cons x xs =>
      simp only [List.nil_append, List.cons_append] at h
      have hx := ha2 x (by simp)
      have hn := hu1 x (xs ++ u2) h
      rw [hx] at hn
      cases hn
  | cons x xs ih =>
    cases a2 with
    | nil =>
      simp only [List.cons_append, List.nil_append] at h
      have hx := ha1 x (by simp)
      have hn := hu2 x (xs ++ u1) h.symm
      rw [hx] at hn
      cases hn
    | cons y ys =>
      simp only [List.cons_append, List.cons.injEq] at h
      obtain ⟨hxy, hrest⟩ := h
      obtain ⟨h1, h2⟩ := ih ys (fun c hc => ha1 c (List.mem_cons_of_mem x hc))
        (fun c hc => ha2 c (List.mem_cons_of_mem y hc)) hrest
      exact ⟨by rw [hxy, h1], h2⟩

theorem toLowercase_ne_of_ws_variant (t1 t2 : Str) (htrim : trim t1 = trim t2)
    (hne : t1 ≠ t2) (ht : trim t1 ≠ []) :
    toLowercase t1 ≠ toLowercase t2 := by
  intro hlow
  obtain ⟨a1, b1, ha1, hb1, hd1⟩ := trim_decomp t1
  obtain ⟨a2, b2, ha2, hb2, hd2⟩ := trim_decomp t2
  obtain ⟨c, rest, hcr⟩ : ∃ c rest, trim t1 = c :: rest := by
    cases hm : trim t1 with
    | nil => exact absurd hm ht
    | cons c rest => exact ⟨c, rest, rfl⟩
  have hcw := trim_head_not_ws t1 c rest hcr
  obtain ⟨m0, ms0, hlm, hm0w⟩ := toLowercase_head c rest hcw
  have hlm' : toLowercase (trim t1) = m0 :: ms0 := by
    rw [hcr]
    exact hlm
  have hsplit1 : toLowercase t1 = a1 ++ (toLowercase (trim t1) ++ b1) := by
    conv_lhs => rw [hd1]
    rw [toLowercase_ws_split a1 (trim t1) b1 ha1 hb1, List.append_assoc]
  have hsplit2 : toLowercase t2 = a2 ++ (toLowercase (trim t2) ++ b2) := by
    conv_lhs => rw [hd2]
    rw [toLowercase_ws_split a2 (trim t2) b2 ha2 hb2, List.append_assoc]
  have hhead : ∀ cc rr, toLowercase (trim t1) ++ b1 = cc :: rr →
      rustIsWhitespace cc = false := by
    intro cc rr hcons
    rw [hlm'] at hcons
    simp only [List.cons_append, List.cons.injEq] at hcons
    rw [← hcons.1]
    exact hm0w
  have hhead2 : ∀ cc rr, toLowercase (trim t2) ++ b2 = cc :: rr →
      rustIsWhitespace cc = false := by
    intro cc rr hcons
    rw [← htrim, hlm'] at hcons
    simp only [List.cons_append, List.cons.injEq] at hcons
    rw [← hcons.1]
    exact hm0w
  rw [hsplit1, hsplit2] at hlow
  obtain ⟨haa, hbb⟩ := ws_append_cancel a1 a2 _ _ ha1 ha2 hhead hhead2 hlow
  rw [htrim] at hbb
  have hb12 : b1 = b2 := List.append_cancel_left hbb
  apply hne
  rw [hd1, hd2, haa, htrim, hb12]

theorem trim_toLower_nil (t s : Str) (h : toLowercase t = toLowercase s)
    (hs : trim t = []) : trim s = [] := by
  by_contra hne
  obtain ⟨a, b, ha, hb, hdec⟩ := trim_decomp s
  obtain ⟨c, rest, hcr⟩ : ∃ c rest, trim s = c :: rest := by
    cases hm : trim s with
    | nil => exact absurd hm hne
    | cons c rest => exact ⟨c, rest, rfl⟩
  have hcw := trim_head_not_ws s c rest hcr
  obtain ⟨m0, ms0, hlm, hm0w⟩ := toLowercase_head c rest hcw
  have hsplit : toLowercase s = a ++ toLowercase (trim s) ++ b := by
    conv_lhs => rw [hdec]
    exact toLowercase_ws_split a (trim s) b ha hb
  have hT : ∀ cc ∈ t, rustIsWhitespace cc = true := (trim_eq_nil_iff t).mp hs
  have ht' : toLowercase t = t := toLowercaseAux_ws [] t hT
  have hmem : m0 ∈ toLowercase s := by
    rw [hsplit, hcr, hlm]
    simp
  rw [← h, ht'] at hmem
  rw [hT m0 hmem] at hm0w
  cases hm0w

/-- Claim C7: every reachable store has pairwise distinct course ids, no two
stored titles equal up to case, positive prices and non-blank titles; and a
call whose title is a case variant of a stored title fails with
`DuplicateTitle`. -/
theorem C7_store_invariants (st : Store) (hre : Reachable st) :
    (∀ k1 k2 c1 c2, st.courses k1 = some c1 → st.courses k2 = some c2 →
      k1 ≠ k2 → c1.id ≠ c2.id ∧ toLowercase c1.title ≠ toLowercase c2.title)
    ∧ (∀ k c, st.courses k = some c → 0 < c.price ∧ trim c.title ≠ [])
    ∧ (∀ env t d p cat lang th k c, st.courses k = some c →
        toLowercase t = toLowercase c.title → p ≠ 0 →
        (course_registry_create_course env t d p cat lang th st).1
          = Except.error CourseError.DuplicateTitle) := by
  have hInv := reachable_inv hre
  refine ⟨?_, ?_, ?_⟩
  · intro k1 k2 c1 c2 h1 h2 hk
    constructor
    · rw [hInv.id_eq_key k1 c1 h1, hInv.id_eq_key k2 c2 h2]
      exact hk
    · intro he
      exact hk (hInv.title_uniq k1 k2 c1 c2 h1 h2 he)
  · intro k c hkc
    exact ⟨hInv.price_pos k c hkc, hInv.title_nonempty k c hkc⟩
  · intro env t d p cat lang th k c hkc hlow hp
    have hm := hInv.marker k c hkc
    have ht : trim t ≠ [] := by
      intro h0
      exact hInv.title_nonempty k c hkc (trim_toLower_nil t c.title hlow h0)
    rw [create_duplicate_title env t d p cat lang th st ht hp
      (by rw [hlow, hm]; rfl)]

/-- Claim C7 witness: the store after one successful call. -/
theorem C7_store_invariants_witness :
    (∀ k1 k2 c1 c2,
      (course_registry_create_course ⟨7⟩ ['a'] [] 5 none none none
          emptyStore).2.courses k1 = some c1 →
      (course_registry_create_course ⟨7⟩ ['a'] [] 5 none none none
          emptyStore).2.courses k2 = some c2 →
      k1 ≠ k2 → c1.id ≠ c2.id ∧ toLowercase c1.title ≠ toLowercase c2.title)
    ∧ (∀ k c, (course_registry_create_course ⟨7⟩ ['a'] [] 5 none none none
          emptyStore).2.courses k = some c →
        0 < c.price ∧ trim c.title ≠ [])
    ∧ (∀ env t d p cat lang th k c,
        (course_registry_create_course ⟨7⟩ ['a'] [] 5 none none none
          emptyStore).2.courses k = some c →
        toLowercase t = toLowercase c.title → p ≠ 0 →
        (course_registry_create_course env t d p cat lang th
          (course_registry_create_course ⟨7⟩ ['a'] [] 5 none none none
            emptyStore).2).1 = Except.error CourseError.DuplicateTitle) :=
  C7_store_invariants
    (course_registry_create_course ⟨7⟩ ['a'] [] 5 none none none emptyStore).2
    (Reachable.step ⟨7⟩ ['a'] [] 5 none none none Reachable.empty)

/-- Claim C10: the uniqueness key lower-cases the title exactly as supplied,
without trimming, and the title is stored verbatim: two valid titles that
differ only in leading or trailing whitespace both succeed, each returned
Course keeps its whitespace, and the marker of the first call sits at the
lower-cased untrimmed title. -/
theorem C10_whitespace_titles (env1 env2 : Env) (t1 t2 d1 d2 : Str)
    (p1 p2 : Nat) (c1 c2 l1 l2 u1 u2 : Option Str)
    (htrim : trim t1 = trim t2) (hne : t1 ≠ t2) (ht : trim t1 ≠ [])
    (hp1 : p1 ≠ 0) (hp2 : p2 ≠ 0) :
    ∃ course1 st1 course2 st2,
      course_registry_create_course env1 t1 d1 p1 c1 l1 u1 emptyStore
        = (Except.ok course1, st1)
      ∧ course_registry_create_course env2 t2 d2 p2 c2 l2 u2 st1
        = (Except.ok course2, st2)
      ∧ course1.title = t1 ∧ course2.title = t2
      ∧ st1.titles (toLowercase t1) = some true := by
  have hlow := toLowercase_ne_of_ws_variant t1 t2 htrim hne ht
  have hok1 := create_ok env1 t1 d1 p1 c1 l1 u1 emptyStore ht hp1 rfl rfl
  have hInv1 : Inv (mkStore env1 t1 d1 p1 c1 l1 u1 emptyStore) := by
    have hstep := inv_step env1 t1 d1 p1 c1 l1 u1 emptyStore inv_empty
    rw [hok1] at hstep
    exact hstep
  have htitles1 : (mkStore env1 t1 d1 p1 c1 l1 u1 emptyStore).titles
      (toLowercase t2) = none := by
    show (if toLowercase t2 = toLowercase t1 then some true
      else emptyStore.titles (toLowercase t2)) = none
    rw [if_neg (fun he => hlow he.symm)]
    rfl
  have ht2 : trim t2 ≠ [] := by
    rw [← htrim]
    exact ht
  have hok2 := create_ok env2 t2 d2 p2 c2 l2 u2
    (mkStore env1 t1 d1 p1 c1 l1 u1 emptyStore) ht2 hp2 htitles1 hInv1.fresh_id
  refine ⟨_, _, _, _, hok1, hok2, rfl, rfl, ?_⟩
  show (if toLowercase t1 = toLowercase t1 then some true
    else emptyStore.titles (toLowercase t1)) = some true
  rw [if_pos rfl]

/-- Claim C10 witness: the titles X and X preceded by a no-break space
(U+00A0), a Unicode-only whitespace character. -/
theorem C10_whitespace_titles_witness :
    ∃ course1 st1 course2 st2,
      course_registry_create_course ⟨7⟩ ['X'] [] 3 none none none emptyStore
        = (Except.ok course1, st1)
      ∧ course_registry_create_course ⟨8⟩ [Char.ofNat 160, 'X'] [] 4 none
          none none st1 = (Except.ok course2, st2)
      ∧ course1.title = ['X'] ∧ course2.title = [Char.ofNat 160, 'X']
      ∧ st1.titles (toLowercase ['X']) = some true :=
  C10_whitespace_titles ⟨7⟩ ⟨8⟩ ['X'] [Char.ofNat 160, 'X'] [] [] 3 4 none
    none none none none none (by decide) (by decide) (by decide) (by decide)
    (by decide)

end CourseRegistry
